import Mathlib

/-!
Verification of the detection-and-matching engine of a design-lint plugin
(src/code.js).  The JavaScript functions are shallowly embedded as Lean
definitions: colors and font metrics become rationals, JS arrays become
lists, the per-node try/catch becomes an explicit `throws` flag on node
data, and the global `scanResults` object becomes explicit state passing.
-/

namespace FigmaLint

/-- Node type tags, as in the `node.type` string of the plugin API. -/
inductive NodeType
  | TEXT | RECTANGLE | ELLIPSE | POLYGON | STAR | FRAME | GROUP
  | COMPONENT | INSTANCE | VECTOR | BOOLEAN_OPERATION | LINE | PAGE | DOCUMENT
deriving DecidableEq, Repr

/-- Render a node type tag back to its source string. -/
def NodeType.str : NodeType → String
  | .TEXT => "TEXT"
  | .RECTANGLE => "RECTANGLE"
  | .ELLIPSE => "ELLIPSE"
  | .POLYGON => "POLYGON"
  | .STAR => "STAR"
  | .FRAME => "FRAME"
  | .GROUP => "GROUP"
  | .COMPONENT => "COMPONENT"
  | .INSTANCE => "INSTANCE"
  | .VECTOR => "VECTOR"
  | .BOOLEAN_OPERATION => "BOOLEAN_OPERATION"
  | .LINE => "LINE"
  | .PAGE => "PAGE"
  | .DOCUMENT => "DOCUMENT"

/-- An RGB color with optional alpha, channels in [0,1] embedded as rationals. -/
structure RGBA where
  r : ℚ
  g : ℚ
  b : ℚ
  a : Option ℚ := none
deriving DecidableEq, Repr

/-- A color variable descriptor as built by `discoverColorVariables`
(src/code.js:1021): id, name, remote flag and the resolved concrete color.
`resolvedColor` is optional because `findMatchingColorVariables` re-checks
`variable.resolvedColor` before using it. -/
structure ColorVariableDescriptor where
  id : String
  name : String
  remote : Bool
  resolvedColor : Option RGBA
  isLocal : Bool := true
deriving DecidableEq, Repr

/-- Color match tier: `matchType` is the string exact / similar in the source. -/
inductive ColorTier
  | exact
  | similar
deriving DecidableEq, Repr

/-- One entry of the `matches` array built by `findMatchingColorVariables`. -/
structure ColorMatch where
  variableDesc : ColorVariableDescriptor
  matchType : ColorTier
  isFromLibrary : Bool
  colorDistance : ℚ
deriving DecidableEq, Repr

/-- The exact-tier test of `findMatchingColorVariables` (src/code.js:1242-1246):
every per-channel absolute difference is strictly below 0.004. -/
def exactColorPred (color : RGBA) (v : ColorVariableDescriptor) : Bool :=
  match v.resolvedColor with
  | none => false
  | some varColor =>
    decide (|varColor.r - color.r| < (0.004 : ℚ)) &&
    decide (|varColor.g - color.g| < (0.004 : ℚ)) &&
    decide (|varColor.b - color.b| < (0.004 : ℚ))

/-- The similar-tier test of `findMatchingColorVariables` (src/code.js:1269-1273):
every per-channel absolute difference is at most the tolerance 0.1. -/
def similarColorPred (color : RGBA) (v : ColorVariableDescriptor) : Bool :=
  match v.resolvedColor with
  | none => false
  | some varColor =>
    decide (|varColor.r - color.r| ≤ (0.1 : ℚ)) &&
    decide (|varColor.g - color.g| ≤ (0.1 : ℚ)) &&
    decide (|varColor.b - color.b| ≤ (0.1 : ℚ))

/-- Summed absolute channel distance used for ranking similar color matches. -/
def colorDistanceTo (color : RGBA) (v : ColorVariableDescriptor) : ℚ :=
  match v.resolvedColor with
  | none => 0
  | some varColor =>
    |varColor.r - color.r| + |varColor.g - color.g| + |varColor.b - color.b|

/-- Build one color match record for tier `t`. -/
def mkColorMatch (color : RGBA) (t : ColorTier) (v : ColorVariableDescriptor) : ColorMatch :=
  { variableDesc := v
    matchType := t
    isFromLibrary := v.remote
    colorDistance := colorDistanceTo color v }

/-- Ranking relation used when sorting similar matches:
`matches.sort((a, b) => a.colorDistance - b.colorDistance)` (src/code.js:1289).
JS `Array.prototype.sort` is a stable sort for this comparator, which
`List.insertionSort` models exactly. -/
def colorMatchLE (a b : ColorMatch) : Prop := a.colorDistance ≤ b.colorDistance

instance : DecidableRel colorMatchLE := fun a b =>
  inferInstanceAs (Decidable (a.colorDistance ≤ b.colorDistance))

/-- `findMatchingColorVariables` (src/code.js:1226): collect exact matches in
catalog order; only if there are none, collect similar matches and sort them
ascending by summed channel distance.  The catalog list stands for the result
of `getAvailableColorVariables()`. -/
def findMatchingColorVariables (color : RGBA)
    (colorVariables : List ColorVariableDescriptor) : List ColorMatch :=
  let exactMatches :=
    (colorVariables.filter (exactColorPred color)).map (mkColorMatch color .exact)
  if exactMatches.isEmpty then
    let similarMatches :=
      (colorVariables.filter (similarColorPred color)).map (mkColorMatch color .similar)
    similarMatches.insertionSort colorMatchLE
  else
    exactMatches

/-- A font name: family plus style, as in the plugin's `FontName` objects. -/
structure FontName where
  family : String
  style : String
deriving DecidableEq, Repr

/-- A value-plus-unit object such as `lineHeight` or `letterSpacing`; the
`value` field is absent for unit AUTO. -/
structure UnitValue where
  value : Option ℚ
deriving DecidableEq, Repr

/-- A text style descriptor as discovered by `discoverTextStyles`. -/
structure TextStyleDescriptor where
  id : String
  name : String
  fontName : Option FontName
  fontSize : Option ℚ
  lineHeight : Option UnitValue := none
  letterSpacing : Option UnitValue := none
  remote : Bool
  description : Option String := none
deriving DecidableEq, Repr

/-- Text match tier: the strings exact / partial / fuzzy in the source. -/
inductive TextTier
  | exact
  | partialTier
  | fuzzy
deriving DecidableEq, Repr

/-- One entry of the `matches` array built by `findMatchingTextStyles`. -/
structure TextMatch where
  style : TextStyleDescriptor
  matchType : TextTier
  isFromLibrary : Bool
deriving DecidableEq, Repr

/-- The line-height / letter-spacing clause of the exact tier
(src/code.js:1159-1164): `styleLineHeight === nodeLineHeight` holds in JS only
when both are the absent value (two distinct present objects are never
reference-equal), otherwise both objects must carry values within a strict
0.1 tolerance; a missing `value` (unit AUTO) makes the NaN comparison false. -/
def unitValueClose (styleVal nodeVal : Option UnitValue) : Bool :=
  match styleVal, nodeVal with
  | none, none => true
  | some s, some n =>
    match s.value, n.value with
    | some x, some y => decide (|x - y| < (0.1 : ℚ))
    | _, _ => false
  | _, _ => false

/-- JS falsiness of an optional number (`!textNode.fontSize`). -/
def jsFalsyNum : Option ℚ → Bool
  | none => true
  | some x => decide (x = 0)

/-- Reference to a text style on a TEXT node: the empty string, the
`figma.mixed` sentinel, or a concrete style id. -/
inductive TextStyleRef
  | empty
  | mixed
  | styleId (id : String)
deriving DecidableEq, Repr

/-- A paint (fill or stroke) slot. -/
inductive PaintType
  | SOLID | IMAGE | OTHER
deriving DecidableEq, Repr

/-- One entry of a `fills` / `strokes` array.  `visible` and `opacity` are
optional because the plugin API may omit them. -/
structure Paint where
  type : PaintType
  color : Option RGBA := none
  visible : Option Bool := none
  opacity : Option ℚ := none
deriving DecidableEq, Repr

/-- Effect type tags checked by the classifier. -/
inductive EffectType
  | DROP_SHADOW | INNER_SHADOW | LAYER_BLUR | BACKGROUND_BLUR
deriving DecidableEq, Repr

/-- One entry of an `effects` array. -/
structure Effect where
  type : EffectType
  radius : ℚ := 0
deriving DecidableEq, Repr

/-- The `boundVariables` object of a node: for each of `fills`, `strokes` and
`effects` the set of slot indices bound to a variable (in JS, the indices at
which `boundVariables.fills[index]` is a truthy alias object). -/
structure BoundVariables where
  fills : List Nat := []
  strokes : List Nat := []
  effects : List Nat := []
deriving DecidableEq, Repr

/-- The read-only node attributes consumed by the scan.  `fills`, `strokes`
and `effects` are `none` when the property is absent or `figma.mixed` (the
source guards with `Array.isArray`); `throws` models a JS exception raised
while evaluating this node's classification rules, which the per-node
try/catch in `traverseNode` (src/code.js:1521,1872) swallows. -/
structure NodeData where
  id : String
  name : String
  type : NodeType
  textStyleId : TextStyleRef := .empty
  characters : String := ""
  fontName : Option FontName := none
  fontSize : Option ℚ := none
  lineHeight : Option UnitValue := none
  letterSpacing : Option UnitValue := none
  fills : Option (List Paint) := none
  strokes : Option (List Paint) := none
  effects : Option (List Effect) := none
  boundVariables : Option BoundVariables := none
  throws : Bool := false
deriving DecidableEq, Repr

/-- A document node: attribute record plus ordered children. -/
inductive Node where
  | node (data : NodeData) (children : List Node)

/-- The attribute record of a node. -/
def Node.data : Node → NodeData
  | .node d _ => d

/-- The children of a node. -/
def Node.children : Node → List Node
  | .node _ cs => cs

/-- One entry of the ancestor chain of a node (name and type of an ancestor);
the chain is listed nearest parent first and replaces the JS `parent`
back-references. -/
structure Frame where
  name : String
  type : NodeType
deriving DecidableEq, Repr

/-- `getNodePath` (src/code.js:1878): walk `parent` pointers upward, prepending
`current.name` at each step, until the parent is a PAGE, whose name is
prepended instead; the join with " > " is left as a list of segments. -/
def getNodePath (nodeName : String) : List Frame → List String
  | [] => []
  | p :: rest =>
    if p.type = NodeType.PAGE then [p.name]
    else getNodePath p.name rest ++ [nodeName]

/-- `isInsideComponent` (src/code.js:1895): scan at most the first 10 ancestors
for a COMPONENT or INSTANCE. -/
def isInsideComponent (ancestors : List Frame) : Bool :=
  (ancestors.take 10).any fun a =>
    decide (a.type = NodeType.COMPONENT) || decide (a.type = NodeType.INSTANCE)

/-- `couldBeComponent` (src/code.js:1913): has children, or is a
RECTANGLE / FRAME / GROUP, or is TEXT with non-blank characters, or has any
fill or stroke. -/
def couldBeComponent (d : NodeData) (children : List Node) : Bool :=
  if !children.isEmpty then true
  else if decide (d.type = NodeType.RECTANGLE) || decide (d.type = NodeType.FRAME)
      || decide (d.type = NodeType.GROUP) then true
  else if decide (d.type = NodeType.TEXT) && !(d.characters.trim = "") then true
  else if !((d.fills.getD []).isEmpty) || !((d.strokes.getD []).isEmpty) then true
  else false

/-- `findMatchingTextStyles` (src/code.js:1134): the `matches` array.  Guard:
a falsy `fontName` or `fontSize` yields no matches.  Then the exact, partial
and fuzzy loops each push matching styles in catalog order, and a later loop
runs only when the earlier ones found nothing. -/
def exactTextMatch (d : NodeData) (style : TextStyleDescriptor) : Bool :=
  match style.fontName, d.fontName with
  | some sf, some nf =>
    decide (sf.family = nf.family) && decide (sf.style = nf.style) &&
    decide (style.fontSize = d.fontSize) &&
    unitValueClose style.lineHeight d.lineHeight &&
    unitValueClose style.letterSpacing d.letterSpacing
  | _, _ => false

/-- The partial-tier test: same font family, style and size
(src/code.js:1185-1187). -/
def partialTextMatch (d : NodeData) (style : TextStyleDescriptor) : Bool :=
  match style.fontName, d.fontName with
  | some sf, some nf =>
    decide (sf.family = nf.family) && decide (sf.style = nf.style) &&
    decide (style.fontSize = d.fontSize)
  | _, _ => false

/-- The fuzzy-tier test: same font family only (src/code.js:1208). -/
def fuzzyTextMatch (d : NodeData) (style : TextStyleDescriptor) : Bool :=
  match style.fontName, d.fontName with
  | some sf, some nf => decide (sf.family = nf.family)
  | _, _ => false

/-- Build one text match record for tier `t`. -/
def mkTextMatch (t : TextTier) (style : TextStyleDescriptor) : TextMatch :=
  { style := style, matchType := t, isFromLibrary := style.remote }

/-- The `matches` list returned by `findMatchingTextStyles`; the catalog list
stands for the result of `getAvailableTextStyles()` (the `allStyles` field of
the JS return value is that same catalog, unchanged). -/
def findMatchingTextStyles (d : NodeData)
    (textStyles : List TextStyleDescriptor) : List TextMatch :=
  if d.fontName.isNone || jsFalsyNum d.fontSize then []
  else
    let exactMatches := (textStyles.filter (exactTextMatch d)).map (mkTextMatch .exact)
    if !exactMatches.isEmpty then exactMatches
    else
      let partialMatches :=
        (textStyles.filter (partialTextMatch d)).map (mkTextMatch .partialTier)
      if !partialMatches.isEmpty then partialMatches
      else (textStyles.filter (fuzzyTextMatch d)).map (mkTextMatch .fuzzy)

/-- Property path of a color finding: the strings `fills[i]`, `strokes[i]`,
`effect[i]` of the source, kept structured. -/
inductive SlotRef
  | fills (index : Nat)
  | strokes (index : Nat)
  | effect (index : Nat)
deriving DecidableEq, Repr

/-- A detached-text-style finding (entries of `detachedTextStyles`);
presentation-only fields (description, suggestion strings, truncation of
`characters`) are omitted. -/
structure TextFinding where
  id : String
  name : String
  path : List String
  characters : String
  matches' : List TextMatch
  availableTextStyles : List TextStyleDescriptor
deriving DecidableEq, Repr

/-- The `type` string of a color finding. -/
inductive ColorFindingType
  | FILL_COLOR | STROKE_COLOR | EFFECT
deriving DecidableEq, Repr

/-- A detached-variable finding (entries of `detachedVariables`). -/
structure ColorFinding where
  id : String
  name : String
  type : ColorFindingType
  path : List String
  color : Option RGBA
  opacity : Option ℚ
  property : SlotRef
  matches' : List ColorMatch
  availableColorVariables : List ColorVariableDescriptor
deriving DecidableEq, Repr

/-- A detached-layer finding (entries of `detachedLayers`). -/
structure LayerFinding where
  id : String
  name : String
  type : String
  path : List String
  description : String
deriving DecidableEq, Repr

/-- The `summary` object; `isEmpty` is false when the JS field is absent
(absence is falsy). -/
structure Summary where
  totalDetached : Nat
  textStyles : Nat
  variables' : Nat
  layers : Nat
  isEmpty : Bool := false
deriving DecidableEq, Repr

/-- The global `scanResults` object. -/
structure ScanResults where
  detachedTextStyles : List TextFinding
  detachedVariables : List ColorFinding
  detachedLayers : List LayerFinding
  summary : Summary
deriving DecidableEq, Repr

/-- The state installed by `resetResults` (src/code.js:1493). -/
def emptyResults : ScanResults :=
  { detachedTextStyles := []
    detachedVariables := []
    detachedLayers := []
    summary := { totalDetached := 0, textStyles := 0, variables' := 0, layers := 0 } }

/-- The text-without-style test (src/code.js:1528):
`node.textStyleId === '' || node.textStyleId === figma.mixed`. -/
def textStyleDetached (d : NodeData) : Bool :=
  decide (d.textStyleId = .empty) || decide (d.textStyleId = .mixed)

/-- The paint-capable type list of the variable-detection rule
(src/code.js:1590-1593). -/
def paintCapable (t : NodeType) : Bool :=
  decide (t = NodeType.RECTANGLE) || decide (t = NodeType.ELLIPSE) ||
  decide (t = NodeType.POLYGON) || decide (t = NodeType.STAR) ||
  decide (t = NodeType.FRAME) || decide (t = NodeType.GROUP) ||
  decide (t = NodeType.COMPONENT) || decide (t = NodeType.INSTANCE) ||
  decide (t = NodeType.TEXT) || decide (t = NodeType.VECTOR) ||
  decide (t = NodeType.BOOLEAN_OPERATION) || decide (t = NodeType.LINE)

/-- Truthiness of `node.boundVariables && node.boundVariables.fills &&
node.boundVariables.fills[index]`. -/
def boundFillAt (bv : Option BoundVariables) (index : Nat) : Bool :=
  match bv with
  | none => false
  | some b => b.fills.contains index

/-- Truthiness of `node.boundVariables.strokes[index]`. -/
def boundStrokeAt (bv : Option BoundVariables) (index : Nat) : Bool :=
  match bv with
  | none => false
  | some b => b.strokes.contains index

/-- Truthiness of `node.boundVariables.effects[index]`. -/
def boundEffectAt (bv : Option BoundVariables) (index : Nat) : Bool :=
  match bv with
  | none => false
  | some b => b.effects.contains index

/-- `fill.opacity !== undefined ? fill.opacity : (fill.color.a !== undefined ?
fill.color.a : 1)` (src/code.js:1637). -/
def paintOpacity (p : Paint) (c : RGBA) : ℚ :=
  match p.opacity with
  | some o => o
  | none =>
    match c.a with
    | some a => a
    | none => 1

/-- The qualification test of one fill slot (src/code.js:1602-1609): SOLID,
with a color object, not hidden, and not bound to a variable. -/
def fillQual (d : NodeData) (fill : Paint) (index : Nat) : Bool :=
  decide (fill.type = PaintType.SOLID) && !(fill.color.isNone) &&
  !(decide (fill.visible = some false)) && !(boundFillAt d.boundVariables index)

/-- The qualification test of one stroke slot (src/code.js:1668-1674): SOLID,
with a color object, and not bound; strokes have no visibility check. -/
def strokeQual (d : NodeData) (stroke : Paint) (index : Nat) : Bool :=
  decide (stroke.type = PaintType.SOLID) && !(stroke.color.isNone) &&
  !(boundStrokeAt d.boundVariables index)

/-- The qualification test of one effect slot (src/code.js:1732-1736):
DROP_SHADOW or INNER_SHADOW, and not bound. -/
def effectQual (d : NodeData) (e : Effect) (index : Nat) : Bool :=
  (decide (e.type = EffectType.DROP_SHADOW) || decide (e.type = EffectType.INNER_SHADOW)) &&
  !(boundEffectAt d.boundVariables index)

/-- The color finding built for fill slot `index` (src/code.js:1630-1642). -/
def mkFillFinding (d : NodeData) (path : List String)
    (ccat : List ColorVariableDescriptor) (fill : Paint) (index : Nat) : ColorFinding :=
  let c := fill.color.getD { r := 0, g := 0, b := 0 }
  { id := d.id
    name := d.name
    type := .FILL_COLOR
    path := path
    color := fill.color
    opacity := some (paintOpacity fill c)
    property := .fills index
    matches' := findMatchingColorVariables c ccat
    availableColorVariables := ccat }

/-- The color finding built for stroke slot `index` (src/code.js:1695-1707). -/
def mkStrokeFinding (d : NodeData) (path : List String)
    (ccat : List ColorVariableDescriptor) (stroke : Paint) (index : Nat) : ColorFinding :=
  let c := stroke.color.getD { r := 0, g := 0, b := 0 }
  { id := d.id
    name := d.name
    type := .STROKE_COLOR
    path := path
    color := stroke.color
    opacity := some (paintOpacity stroke c)
    property := .strokes index
    matches' := findMatchingColorVariables c ccat
    availableColorVariables := ccat }

/-- The descriptive color finding built for effect slot `index`
(src/code.js:1739-1747): no color matching is attempted. -/
def mkEffectFinding (d : NodeData) (path : List String) (index : Nat) : ColorFinding :=
  { id := d.id
    name := d.name
    type := .EFFECT
    path := path
    color := none
    opacity := none
    property := .effect index
    matches' := []
    availableColorVariables := [] }

/-- The indexed for-loop over a slot array: at each position, emit the finding
built by `mk` when the slot qualifies. -/
def slotLoop {α β : Type} (q : α → Nat → Bool) (mk : α → Nat → β) :
    List α → Nat → List β
  | [], _ => []
  | x :: rest, index =>
    (if q x index then [mk x index] else []) ++ slotLoop q mk rest (index + 1)

/-- Whether slot `i` of the list starting at absolute index `k` qualifies. -/
def slotQ {α : Type} (q : α → Nat → Bool) : List α → Nat → Nat → Bool
  | [], _, _ => false
  | x :: _, k, 0 => q x k
  | _ :: rest, k, i + 1 => slotQ q rest (k + 1) i

/-- The findings produced by the fills loop of `traverseNode`
(src/code.js:1597-1661). -/
def fillFindings (d : NodeData) (path : List String)
    (ccat : List ColorVariableDescriptor) : List ColorFinding :=
  match d.fills with
  | none => []
  | some fills => slotLoop (fillQual d) (mkFillFinding d path ccat) fills 0

/-- The findings produced by the strokes loop (src/code.js:1664-1726). -/
def strokeFindings (d : NodeData) (path : List String)
    (ccat : List ColorVariableDescriptor) : List ColorFinding :=
  match d.strokes with
  | none => []
  | some strokes => slotLoop (strokeQual d) (mkStrokeFinding d path ccat) strokes 0

/-- The findings produced by the effects loop (src/code.js:1729-1751). -/
def effectFindings (d : NodeData) (path : List String) : List ColorFinding :=
  match d.effects with
  | none => []
  | some effects => slotLoop (effectQual d) (fun _ i => mkEffectFinding d path i) effects 0

/-- Whether fill slot `i` of node `d` is detached (SOLID, colored, not hidden,
not bound, and the index exists). -/
def fillSlotDetached (d : NodeData) (i : Nat) : Bool :=
  match d.fills with
  | none => false
  | some fills => slotQ (fillQual d) fills 0 i

/-- Whether stroke slot `i` of node `d` is detached. -/
def strokeSlotDetached (d : NodeData) (i : Nat) : Bool :=
  match d.strokes with
  | none => false
  | some strokes => slotQ (strokeQual d) strokes 0 i

/-- Whether effect slot `i` of node `d` is detached (a shadow and not bound). -/
def effectSlotDetached (d : NodeData) (i : Nat) : Bool :=
  match d.effects with
  | none => false
  | some effects => slotQ (effectQual d) effects 0 i

/-- The text finding built at src/code.js:1545-1558. -/
def mkTextFinding (d : NodeData) (path : List String)
    (tcat : List TextStyleDescriptor) : TextFinding :=
  { id := d.id
    name := d.name
    path := path
    characters := d.characters
    matches' := findMatchingTextStyles d tcat
    availableTextStyles := tcat }

/-- Push helpers mirroring `scanResults.detachedTextStyles.push(...)` etc. -/
def pushText (res : ScanResults) (f : TextFinding) : ScanResults :=
  { res with detachedTextStyles := res.detachedTextStyles ++ [f] }

/-- Append to `detachedVariables`. -/
def pushVars (res : ScanResults) (fs : List ColorFinding) : ScanResults :=
  { res with detachedVariables := res.detachedVariables ++ fs }

/-- Append to `detachedLayers`. -/
def pushLayer (res : ScanResults) (f : LayerFinding) : ScanResults :=
  { res with detachedLayers := res.detachedLayers ++ [f] }

/-- The text-style rule of `traverseNode` (src/code.js:1525-1573). -/
def textStep (res : ScanResults) (d : NodeData) (path : List String)
    (tcat : List TextStyleDescriptor) : ScanResults :=
  if d.type = NodeType.TEXT ∧ textStyleDetached d then
    pushText res (mkTextFinding d path tcat)
  else res

/-- The variable-detection rule of `traverseNode` (src/code.js:1590-1752):
fills, strokes, then effects, in that order. -/
def colorStep (res : ScanResults) (d : NodeData) (path : List String)
    (ccat : List ColorVariableDescriptor) : ScanResults :=
  if paintCapable d.type then
    pushVars res (fillFindings d path ccat ++ strokeFindings d path ccat ++
      effectFindings d path)
  else res

/-- The custom-shape rule (src/code.js:1756-1769): VECTOR, BOOLEAN_OPERATION
or LINE outside any component; no overlap check. -/
def shapeStep (res : ScanResults) (d : NodeData) (path : List String)
    (ancestors : List Frame) : ScanResults :=
  if (d.type = NodeType.VECTOR ∨ d.type = NodeType.BOOLEAN_OPERATION ∨
      d.type = NodeType.LINE) ∧ ¬ (isInsideComponent ancestors = true) then
    pushLayer res
      { id := d.id, name := d.name, type := d.type.str, path := path
        description := "Custom shape that could be a component" }
  else res

/-- `node.fills.some(fill => fill.type === 'IMAGE')` under the
`node.fills && node.fills.length > 0` guard. -/
def hasImageFill (d : NodeData) : Bool :=
  match d.fills with
  | none => false
  | some fills => !fills.isEmpty && fills.any fun f => decide (f.type = PaintType.IMAGE)

/-- The image rule (src/code.js:1772-1789): RECTANGLE with an IMAGE fill,
outside components, passing the component heuristic, and not already present
in `detachedVariables` or `detachedLayers`. -/
def imageStep (res : ScanResults) (d : NodeData) (children : List Node)
    (path : List String) (ancestors : List Frame) : ScanResults :=
  if d.type = NodeType.RECTANGLE ∧ hasImageFill d = true ∧
      ¬ (isInsideComponent ancestors = true) ∧ couldBeComponent d children = true ∧
      ¬ (res.detachedVariables.any fun item => decide (item.id = d.id)) = true ∧
      ¬ (res.detachedLayers.any fun item => decide (item.id = d.id)) = true then
    pushLayer res
      { id := d.id, name := d.name, type := "IMAGE", path := path
        description := "Image that could be part of a component" }
  else res

/-- Description strings of the other-layer rule (src/code.js:1801-1812). -/
def otherLayerDescription (t : NodeType) : String :=
  if t = NodeType.RECTANGLE then "Rectangle that could be converted to a component"
  else if t = NodeType.ELLIPSE then "Ellipse that could be converted to a component"
  else if t = NodeType.TEXT then "Text element that could be part of a component"
  else if t = NodeType.POLYGON ∨ t = NodeType.STAR then
    "Shape that could be converted to a component"
  else t.str ++ " that could be organized into a component"

/-- The other-layer rule (src/code.js:1792-1823): shape or text primitives
outside components passing the heuristic, skipped when the node id is already
present in any of the three lists. -/
def otherLayerStep (res : ScanResults) (d : NodeData) (children : List Node)
    (path : List String) (ancestors : List Frame) : ScanResults :=
  if (d.type = NodeType.RECTANGLE ∨ d.type = NodeType.ELLIPSE ∨
      d.type = NodeType.POLYGON ∨ d.type = NodeType.STAR ∨ d.type = NodeType.TEXT) ∧
      ¬ (isInsideComponent ancestors = true) ∧ couldBeComponent d children = true ∧
      ¬ (res.detachedTextStyles.any fun item => decide (item.id = d.id)) = true ∧
      ¬ (res.detachedVariables.any fun item => decide (item.id = d.id)) = true ∧
      ¬ (res.detachedLayers.any fun item => decide (item.id = d.id)) = true then
    pushLayer res
      { id := d.id, name := d.name, type := d.type.str, path := path
        description := otherLayerDescription d.type }
  else res

/-- The group rule (src/code.js:1827-1848): a GROUP with children, outside
components, any direct child an INSTANCE, VECTOR or BOOLEAN_OPERATION. -/
def groupStep (res : ScanResults) (d : NodeData) (children : List Node)
    (path : List String) (ancestors : List Frame) : ScanResults :=
  if d.type = NodeType.GROUP ∧ children.length > 0 ∧
      ¬ (isInsideComponent ancestors = true) ∧
      ((children.any fun c => decide (c.data.type = NodeType.INSTANCE)) = true ∨
       (children.any fun c => decide (c.data.type = NodeType.VECTOR) ||
          decide (c.data.type = NodeType.BOOLEAN_OPERATION)) = true) then
    pushLayer res
      { id := d.id, name := d.name, type := "GROUP", path := path
        description := "Group containing components or custom shapes" }
  else res

/-- The classification rules of `traverseNode` applied to one visited node, in
source order; the accumulated `res` plays the role of the global
`scanResults`, which the overlap guards of the later rules consult. -/
def classifyNode (res : ScanResults) (d : NodeData) (children : List Node)
    (ancestors : List Frame) (tcat : List TextStyleDescriptor)
    (ccat : List ColorVariableDescriptor) : ScanResults :=
  let path := getNodePath d.name ancestors
  let res := textStep res d path tcat
  let res := colorStep res d path ccat
  let res := shapeStep res d path ancestors
  let res := imageStep res d children path ancestors
  let res := otherLayerStep res d children path ancestors
  groupStep res d children path ancestors

mutual

/-- `traverseNode` (src/code.js:1514): stop above depth 20; a node whose rule
evaluation throws contributes nothing and its children are not reached (the
try block spans the recursive descent); otherwise classify the node, then
recurse into at most the first 100 children at depth + 1. -/
def traverseNode (res : ScanResults) (tcat : List TextStyleDescriptor)
    (ccat : List ColorVariableDescriptor) :
    Node → Nat → List Frame → ScanResults
  | .node d cs, depth, ancestors =>
    if depth > 20 then res
    else if d.throws then res
    else
      traverseChildren (classifyNode res d cs ancestors tcat ccat) tcat ccat
        cs 100 (depth + 1) ({ name := d.name, type := d.type } :: ancestors)

/-- The bounded children loop of `traverseNode` (src/code.js:1852-1868). -/
def traverseChildren (res : ScanResults) (tcat : List TextStyleDescriptor)
    (ccat : List ColorVariableDescriptor) :
    List Node → Nat → Nat → List Frame → ScanResults
  | [], _, _, _ => res
  | _ :: _, 0, _, _ => res
  | c :: cs, k + 1, depth, ancestors =>
    traverseChildren (traverseNode res tcat ccat c depth ancestors) tcat ccat
      cs k depth ancestors

end

/-- `updateSummary` (src/code.js:1938): recompute the per-category counts and
their sum; the `isEmpty` field is left as it was. -/
def updateSummary (res : ScanResults) : ScanResults :=
  { res with
    summary :=
      { totalDetached := res.detachedTextStyles.length + res.detachedVariables.length +
          res.detachedLayers.length
        textStyles := res.detachedTextStyles.length
        variables' := res.detachedVariables.length
        layers := res.detachedLayers.length
        isEmpty := res.summary.isEmpty } }

/-- `performScan` (src/code.js:1452): every top-level node is traversed at
depth 0; batching and inter-batch delays do not change the accumulated state,
and a per-node error is already absorbed inside `traverseNode`. -/
def performScan (roots : List Node) (ancestors : List Frame)
    (tcat : List TextStyleDescriptor) (ccat : List ColorVariableDescriptor) :
    ScanResults :=
  roots.foldl (fun res n => traverseNode res tcat ccat n 0 ancestors) emptyResults

/-- `scanForDetachedElements` (src/code.js:1382): reset, then an immediate
empty result flagged `isEmpty := true` when there are no nodes; otherwise run
the scan and update the summary.  `ancestors` is the ancestor chain shared by
the sibling top-level nodes (their page and what is above it). -/
def scanForDetachedElements (roots : List Node) (ancestors : List Frame)
    (tcat : List TextStyleDescriptor) (ccat : List ColorVariableDescriptor) :
    ScanResults :=
  if roots.isEmpty then
    { detachedTextStyles := []
      detachedVariables := []
      detachedLayers := []
      summary :=
        { totalDetached := 0, textStyles := 0, variables' := 0, layers := 0
          isEmpty := true } }
  else
    updateSummary (performScan roots ancestors tcat ccat)

/-- One visit performed by `traverseNode`: the node's attributes, its children
list, the ancestor chain at that point, and its depth. -/
structure Visit where
  data : NodeData
  children : List Node
  ancestors : List Frame
  depth : Nat

mutual

/-- The sequence of visits performed by `traverseNode` on a subtree, in
visitation order, respecting the depth cutoff, the throw guard and the
100-children cap. -/
def visits : Node → Nat → List Frame → List Visit
  | .node d cs, depth, ancestors =>
    if depth > 20 then []
    else if d.throws then []
    else
      { data := d, children := cs, ancestors := ancestors, depth := depth } ::
        visitsList cs 100 (depth + 1) ({ name := d.name, type := d.type } :: ancestors)

/-- Visits of a capped children list. -/
def visitsList : List Node → Nat → Nat → List Frame → List Visit
  | [], _, _, _ => []
  | _ :: _, 0, _, _ => []
  | c :: cs, k + 1, depth, ancestors =>
    visits c depth ancestors ++ visitsList cs k depth ancestors

end

/-- Replay a sequence of visits against an accumulated result state. -/
def applyVisits (tcat : List TextStyleDescriptor)
    (ccat : List ColorVariableDescriptor) (res : ScanResults) :
    List Visit → ScanResults
  | [] => res
  | v :: vs =>
    applyVisits tcat ccat (classifyNode res v.data v.children v.ancestors tcat ccat) vs

/-- All visits of a scan over a root list. -/
def scanVisits (roots : List Node) (ancestors : List Frame) : List Visit :=
  roots.foldl (fun acc n => acc ++ visits n 0 ancestors) []

theorem applyVisits_append (tcat : List TextStyleDescriptor)
    (ccat : List ColorVariableDescriptor) (res : ScanResults)
    (vs ws : List Visit) :
    applyVisits tcat ccat res (vs ++ ws) =
      applyVisits tcat ccat (applyVisits tcat ccat res vs) ws := by
  induction vs generalizing res with
  | nil => rfl
  | cons v vs ih => simp [applyVisits, ih]

mutual

theorem traverseNode_eq_applyVisits (res : ScanResults)
    (tcat : List TextStyleDescriptor) (ccat : List ColorVariableDescriptor) :
    ∀ (n : Node) (depth : Nat) (ancestors : List Frame),
      traverseNode res tcat ccat n depth ancestors =
        applyVisits tcat ccat res (visits n depth ancestors)
  | .node d cs, depth, ancestors => by
    rw [traverseNode, visits]
    by_cases h1 : depth > 20
    · simp [h1, applyVisits]
    · by_cases h2 : d.throws
      · simp [h1, h2, applyVisits]
      · simp only [h1, h2, if_false, Bool.false_eq_true, applyVisits]
        exact traverseChildren_eq_applyVisits _ tcat ccat cs 100 (depth + 1) _

theorem traverseChildren_eq_applyVisits (res : ScanResults)
    (tcat : List TextStyleDescriptor) (ccat : List ColorVariableDescriptor) :
    ∀ (cs : List Node) (k depth : Nat) (ancestors : List Frame),
      traverseChildren res tcat ccat cs k depth ancestors =
        applyVisits tcat ccat res (visitsList cs k depth ancestors)
  | [], k, depth, ancestors => by
    cases k <;> rfl
  | c :: cs, 0, depth, ancestors => by rfl
  | c :: cs, k + 1, depth, ancestors => by
    rw [traverseChildren, visitsList, applyVisits_append,
      ← traverseNode_eq_applyVisits res tcat ccat c depth ancestors]
    exact traverseChildren_eq_applyVisits _ tcat ccat cs k depth ancestors

end

theorem performScan_eq_applyVisits (roots : List Node) (ancestors : List Frame)
    (tcat : List TextStyleDescriptor) (ccat : List ColorVariableDescriptor) :
    performScan roots ancestors tcat ccat =
      applyVisits tcat ccat emptyResults (scanVisits roots ancestors) := by
  suffices h : ∀ (res : ScanResults) (acc : List Visit),
      res = applyVisits tcat ccat emptyResults acc →
      roots.foldl (fun r n => traverseNode r tcat ccat n 0 ancestors) res =
        applyVisits tcat ccat emptyResults
          (roots.foldl (fun a n => a ++ visits n 0 ancestors) acc) by
    exact h emptyResults [] rfl
  induction roots with
  | nil => intro res acc h; simpa using h
  | cons r rs ih =>
    intro res acc h
    simp only [List.foldl_cons]
    exact ih _ _ (by rw [applyVisits_append, ← h, traverseNode_eq_applyVisits])

/-- The text findings contributed by one visit. -/
def textFindingsOfVisit (tcat : List TextStyleDescriptor) (v : Visit) :
    List TextFinding :=
  if v.data.type = NodeType.TEXT ∧ textStyleDetached v.data then
    [mkTextFinding v.data (getNodePath v.data.name v.ancestors) tcat]
  else []

/-- The color findings contributed by one visit. -/
def colorFindingsOfVisit (ccat : List ColorVariableDescriptor) (v : Visit) :
    List ColorFinding :=
  if paintCapable v.data.type then
    fillFindings v.data (getNodePath v.data.name v.ancestors) ccat ++
      strokeFindings v.data (getNodePath v.data.name v.ancestors) ccat ++
      effectFindings v.data (getNodePath v.data.name v.ancestors)
  else []

theorem textStep_text (res : ScanResults) (d : NodeData) (path : List String)
    (tcat : List TextStyleDescriptor) :
    (textStep res d path tcat).detachedTextStyles =
      res.detachedTextStyles ++
        (if d.type = NodeType.TEXT ∧ textStyleDetached d then
          [mkTextFinding d path tcat] else []) := by
  unfold textStep pushText
  split <;> simp

theorem textStep_vars (res : ScanResults) (d : NodeData) (path : List String)
    (tcat : List TextStyleDescriptor) :
    (textStep res d path tcat).detachedVariables = res.detachedVariables := by
  unfold textStep pushText
  split <;> rfl

theorem textStep_layers (res : ScanResults) (d : NodeData) (path : List String)
    (tcat : List TextStyleDescriptor) :
    (textStep res d path tcat).detachedLayers = res.detachedLayers := by
  unfold textStep pushText
  split <;> rfl

theorem textStep_summary (res : ScanResults) (d : NodeData) (path : List String)
    (tcat : List TextStyleDescriptor) :
    (textStep res d path tcat).summary = res.summary := by
  unfold textStep pushText
  split <;> rfl

theorem colorStep_text (res : ScanResults) (d : NodeData) (path : List String)
    (ccat : List ColorVariableDescriptor) :
    (colorStep res d path ccat).detachedTextStyles = res.detachedTextStyles := by
  unfold colorStep pushVars
  split <;> rfl

theorem colorStep_vars (res : ScanResults) (d : NodeData) (path : List String)
    (ccat : List ColorVariableDescriptor) :
    (colorStep res d path ccat).detachedVariables =
      res.detachedVariables ++
        (if paintCapable d.type then
          fillFindings d path ccat ++ strokeFindings d path ccat ++
            effectFindings d path
        else []) := by
  unfold colorStep pushVars
  split <;> simp

theorem colorStep_layers (res : ScanResults) (d : NodeData) (path : List String)
    (ccat : List ColorVariableDescriptor) :
    (colorStep res d path ccat).detachedLayers = res.detachedLayers := by
  unfold colorStep pushVars
  split <;> rfl

theorem colorStep_summary (res : ScanResults) (d : NodeData) (path : List String)
    (ccat : List ColorVariableDescriptor) :
    (colorStep res d path ccat).summary = res.summary := by
  unfold colorStep pushVars
  split <;> rfl

theorem shapeStep_text (res : ScanResults) (d : NodeData) (path : List String)
    (ancestors : List Frame) :
    (shapeStep res d path ancestors).detachedTextStyles = res.detachedTextStyles := by
  unfold shapeStep pushLayer
  split <;> rfl

theorem shapeStep_vars (res : ScanResults) (d : NodeData) (path : List String)
    (ancestors : List Frame) :
    (shapeStep res d path ancestors).detachedVariables = res.detachedVariables := by
  unfold shapeStep pushLayer
  split <;> rfl

theorem shapeStep_summary (res : ScanResults) (d : NodeData) (path : List String)
    (ancestors : List Frame) :
    (shapeStep res d path ancestors).summary = res.summary := by
  unfold shapeStep pushLayer
  split <;> rfl

theorem imageStep_text (res : ScanResults) (d : NodeData) (children : List Node)
    (path : List String) (ancestors : List Frame) :
    (imageStep res d children path ancestors).detachedTextStyles =
      res.detachedTextStyles := by
  unfold imageStep pushLayer
  split <;> rfl

theorem imageStep_vars (res : ScanResults) (d : NodeData) (children : List Node)
    (path : List String) (ancestors : List Frame) :
    (imageStep res d children path ancestors).detachedVariables =
      res.detachedVariables := by
  unfold imageStep pushLayer
  split <;> rfl

theorem imageStep_summary (res : ScanResults) (d : NodeData) (children : List Node)
    (path : List String) (ancestors : List Frame) :
    (imageStep res d children path ancestors).summary = res.summary := by
  unfold imageStep pushLayer
  split <;> rfl

theorem otherLayerStep_text (res : ScanResults) (d : NodeData) (children : List Node)
    (path : List String) (ancestors : List Frame) :
    (otherLayerStep res d children path ancestors).detachedTextStyles =
      res.detachedTextStyles := by
  unfold otherLayerStep pushLayer
  split <;> rfl

theorem otherLayerStep_vars (res : ScanResults) (d : NodeData) (children : List Node)
    (path : List String) (ancestors : List Frame) :
    (otherLayerStep res d children path ancestors).detachedVariables =
      res.detachedVariables := by
  unfold otherLayerStep pushLayer
  split <;> rfl

theorem otherLayerStep_summary (res : ScanResults) (d : NodeData) (children : List Node)
    (path : List String) (ancestors : List Frame) :
    (otherLayerStep res d children path ancestors).summary = res.summary := by
  unfold otherLayerStep pushLayer
  split <;> rfl

theorem groupStep_text (res : ScanResults) (d : NodeData) (children : List Node)
    (path : List String) (ancestors : List Frame) :
    (groupStep res d children path ancestors).detachedTextStyles =
      res.detachedTextStyles := by
  unfold groupStep pushLayer
  split <;> rfl

theorem groupStep_vars (res : ScanResults) (d : NodeData) (children : List Node)
    (path : List String) (ancestors : List Frame) :
    (groupStep res d children path ancestors).detachedVariables =
      res.detachedVariables := by
  unfold groupStep pushLayer
  split <;> rfl

theorem groupStep_summary (res : ScanResults) (d : NodeData) (children : List Node)
    (path : List String) (ancestors : List Frame) :
    (groupStep res d children path ancestors).summary = res.summary := by
  unfold groupStep pushLayer
  split <;> rfl

theorem classifyNode_text (res : ScanResults) (d : NodeData) (children : List Node)
    (ancestors : List Frame) (tcat : List TextStyleDescriptor)
    (ccat : List ColorVariableDescriptor) :
    (classifyNode res d children ancestors tcat ccat).detachedTextStyles =
      res.detachedTextStyles ++
        (if d.type = NodeType.TEXT ∧ textStyleDetached d then
          [mkTextFinding d (getNodePath d.name ancestors) tcat] else []) := by
  unfold classifyNode
  rw [groupStep_text, otherLayerStep_text, imageStep_text, shapeStep_text,
    colorStep_text, textStep_text]

theorem classifyNode_vars (res : ScanResults) (d : NodeData) (children : List Node)
    (ancestors : List Frame) (tcat : List TextStyleDescriptor)
    (ccat : List ColorVariableDescriptor) :
    (classifyNode res d children ancestors tcat ccat).detachedVariables =
      res.detachedVariables ++
        (if paintCapable d.type then
          fillFindings d (getNodePath d.name ancestors) ccat ++
            strokeFindings d (getNodePath d.name ancestors) ccat ++
            effectFindings d (getNodePath d.name ancestors)
        else []) := by
  unfold classifyNode
  rw [groupStep_vars, otherLayerStep_vars, imageStep_vars, shapeStep_vars,
    colorStep_vars, textStep_vars]

theorem classifyNode_summary (res : ScanResults) (d : NodeData) (children : List Node)
    (ancestors : List Frame) (tcat : List TextStyleDescriptor)
    (ccat : List ColorVariableDescriptor) :
    (classifyNode res d children ancestors tcat ccat).summary = res.summary := by
  unfold classifyNode
  rw [groupStep_summary, otherLayerStep_summary, imageStep_summary,
    shapeStep_summary, colorStep_summary, textStep_summary]

theorem shapeStep_layers_mem {lf : LayerFinding} {res : ScanResults} {d : NodeData}
    {path : List String} {ancestors : List Frame}
    (h : lf ∈ (shapeStep res d path ancestors).detachedLayers) :
    lf ∈ res.detachedLayers ∨
      (lf.id = d.id ∧ (d.type = NodeType.VECTOR ∨ d.type = NodeType.BOOLEAN_OPERATION ∨
        d.type = NodeType.LINE)) := by
  unfold shapeStep pushLayer at h
  split at h
  · rename_i hc
    simp only [List.mem_append, List.mem_singleton] at h
    rcases h with h | h
    · exact Or.inl h
    · exact Or.inr ⟨by rw [h], hc.1⟩
  · exact Or.inl h

theorem imageStep_layers_mem {lf : LayerFinding} {res : ScanResults} {d : NodeData}
    {children : List Node} {path : List String} {ancestors : List Frame}
    (h : lf ∈ (imageStep res d children path ancestors).detachedLayers) :
    lf ∈ res.detachedLayers ∨ (lf.id = d.id ∧ d.type = NodeType.RECTANGLE) := by
  unfold imageStep pushLayer at h
  split at h
  · rename_i hc
    simp only [List.mem_append, List.mem_singleton] at h
    rcases h with h | h
    · exact Or.inl h
    · exact Or.inr ⟨by rw [h], hc.1⟩
  · exact Or.inl h

theorem otherLayerStep_layers_mem {lf : LayerFinding} {res : ScanResults} {d : NodeData}
    {children : List Node} {path : List String} {ancestors : List Frame}
    (h : lf ∈ (otherLayerStep res d children path ancestors).detachedLayers) :
    lf ∈ res.detachedLayers ∨
      (lf.id = d.id ∧
        (res.detachedTextStyles.any fun item => decide (item.id = d.id)) = false) := by
  unfold otherLayerStep pushLayer at h
  split at h
  · rename_i hc
    simp only [List.mem_append, List.mem_singleton] at h
    rcases h with h | h
    · exact Or.inl h
    · refine Or.inr ⟨by rw [h], ?_⟩
      have := hc.2.2.2.1
      simpa using this
  · exact Or.inl h

theorem groupStep_layers_mem {lf : LayerFinding} {res : ScanResults} {d : NodeData}
    {children : List Node} {path : List String} {ancestors : List Frame}
    (h : lf ∈ (groupStep res d children path ancestors).detachedLayers) :
    lf ∈ res.detachedLayers ∨ (lf.id = d.id ∧ d.type = NodeType.GROUP) := by
  unfold groupStep pushLayer at h
  split at h
  · rename_i hc
    simp only [List.mem_append, List.mem_singleton] at h
    rcases h with h | h
    · exact Or.inl h
    · exact Or.inr ⟨by rw [h], hc.1⟩
  · exact Or.inl h

theorem classifyNode_layers_mem {lf : LayerFinding} {res : ScanResults} {d : NodeData}
    {children : List Node} {ancestors : List Frame} {tcat : List TextStyleDescriptor}
    {ccat : List ColorVariableDescriptor}
    (h : lf ∈ (classifyNode res d children ancestors tcat ccat).detachedLayers) :
    lf ∈ res.detachedLayers ∨
      (lf.id = d.id ∧ ¬ (d.type = NodeType.TEXT ∧ textStyleDetached d = true)) := by
  unfold classifyNode at h
  rcases groupStep_layers_mem h with h | ⟨hid, hty⟩
  on_goal 2 =>
    exact Or.inr ⟨hid, fun hc => by rw [hc.1] at hty; exact absurd hty (by decide)⟩
  rcases otherLayerStep_layers_mem h with h | ⟨hid, hany⟩
  on_goal 2 =>
    refine Or.inr ⟨hid, fun hc => ?_⟩
    rw [imageStep_text, shapeStep_text, colorStep_text, textStep_text, if_pos hc] at hany
    simp [mkTextFinding] at hany
  rcases imageStep_layers_mem h with h | ⟨hid, hty⟩
  on_goal 2 =>
    exact Or.inr ⟨hid, fun hc => by rw [hc.1] at hty; exact absurd hty (by decide)⟩
  rcases shapeStep_layers_mem h with h | ⟨hid, hty⟩
  on_goal 2 =>
    refine Or.inr ⟨hid, fun hc => ?_⟩
    rw [hc.1] at hty
    rcases hty with hty | hty | hty <;> exact absurd hty (by decide)
  rw [colorStep_layers, textStep_layers] at h
  exact Or.inl h

theorem applyVisits_text (tcat : List TextStyleDescriptor)
    (ccat : List ColorVariableDescriptor) (res : ScanResults) (vs : List Visit) :
    (applyVisits tcat ccat res vs).detachedTextStyles =
      res.detachedTextStyles ++ vs.flatMap (textFindingsOfVisit tcat) := by
  induction vs generalizing res with
  | nil => simp [applyVisits]
  | cons v vs ih =>
    rw [applyVisits, ih, classifyNode_text]
    simp [textFindingsOfVisit]

theorem applyVisits_vars (tcat : List TextStyleDescriptor)
    (ccat : List ColorVariableDescriptor) (res : ScanResults) (vs : List Visit) :
    (applyVisits tcat ccat res vs).detachedVariables =
      res.detachedVariables ++ vs.flatMap (colorFindingsOfVisit ccat) := by
  induction vs generalizing res with
  | nil => simp [applyVisits]
  | cons v vs ih =>
    rw [applyVisits, ih, classifyNode_vars]
    simp [colorFindingsOfVisit]

theorem applyVisits_summary (tcat : List TextStyleDescriptor)
    (ccat : List ColorVariableDescriptor) (res : ScanResults) (vs : List Visit) :
    (applyVisits tcat ccat res vs).summary = res.summary := by
  induction vs generalizing res with
  | nil => rfl
  | cons v vs ih => rw [applyVisits, ih, classifyNode_summary]

theorem applyVisits_layers_mem {tcat : List TextStyleDescriptor}
    {ccat : List ColorVariableDescriptor} {res : ScanResults} {vs : List Visit}
    {lf : LayerFinding}
    (h : lf ∈ (applyVisits tcat ccat res vs).detachedLayers) :
    lf ∈ res.detachedLayers ∨
      ∃ v ∈ vs, lf.id = v.data.id ∧
        ¬ (v.data.type = NodeType.TEXT ∧ textStyleDetached v.data = true) := by
  induction vs generalizing res with
  | nil => exact Or.inl h
  | cons v vs ih =>
    rw [applyVisits] at h
    rcases ih h with h' | ⟨w, hw, hprop⟩
    · rcases classifyNode_layers_mem h' with h'' | hprop
      · exact Or.inl h''
      · exact Or.inr ⟨v, List.mem_cons_self _ _, hprop⟩
    · exact Or.inr ⟨w, List.mem_cons_of_mem _ hw, hprop⟩

theorem slotLoop_mem {α β : Type} (q : α → Nat → Bool) (mk : α → Nat → β) :
    ∀ (xs : List α) (k : Nat) (f : β), f ∈ slotLoop q mk xs k → ∃ x i, f = mk x i
  | [], _, _, h => absurd h (List.not_mem_nil _)
  | x :: rest, k, f, h => by
    rw [slotLoop] at h
    rcases List.mem_append.mp h with h | h
    · refine ⟨x, k, ?_⟩
      by_cases hq : q x k
      · rw [if_pos hq] at h; simpa using h
      · rw [if_neg hq] at h; exact absurd h (List.not_mem_nil _)
    · exact slotLoop_mem q mk rest (k + 1) f h

theorem slotLoop_countP_lt {α : Type} (q : α → Nat → Bool)
    (mk : α → Nat → ColorFinding) (tag : Nat → SlotRef)
    (hmk : ∀ x i, (mk x i).property = tag i)
    (hinj : ∀ i j, tag i = tag j → i = j) :
    ∀ (xs : List α) (k m : Nat), m < k →
      (slotLoop q mk xs k).countP (fun f => decide (f.property = tag m)) = 0
  | [], _, _, _ => rfl
  | x :: rest, k, m, hm => by
    rw [slotLoop, List.countP_append,
      slotLoop_countP_lt q mk tag hmk hinj rest (k + 1) m (Nat.lt_succ_of_lt hm)]
    have hne : ¬ ((mk x k).property = tag m) := by
      rw [hmk]
      intro hc
      exact absurd (hinj _ _ hc) (Nat.ne_of_gt hm)
    split
    · simp [List.countP_cons, hne]
    · rfl

theorem slotLoop_countP {α : Type} (q : α → Nat → Bool)
    (mk : α → Nat → ColorFinding) (tag : Nat → SlotRef)
    (hmk : ∀ x i, (mk x i).property = tag i)
    (hinj : ∀ i j, tag i = tag j → i = j) :
    ∀ (xs : List α) (k i : Nat),
      (slotLoop q mk xs k).countP (fun f => decide (f.property = tag (k + i))) =
        if slotQ q xs k i then 1 else 0
  | [], k, i => by rw [slotLoop, slotQ]; rfl
  | x :: rest, k, 0 => by
    rw [slotLoop, List.countP_append, Nat.add_zero,
      slotLoop_countP_lt q mk tag hmk hinj rest (k + 1) k (Nat.lt_succ_self k), slotQ]
    have hp : ((mk x k).property = tag k) := hmk x k
    split
    · simp [List.countP_cons, hp]
    · rfl
  | x :: rest, k, i + 1 => by
    have hrec := slotLoop_countP q mk tag hmk hinj rest (k + 1) i
    rw [slotLoop, List.countP_append, slotQ]
    have hkk : k + (i + 1) = (k + 1) + i := by omega
    rw [hkk, hrec]
    have hne : ¬ ((mk x k).property = tag (k + 1 + i)) := by
      rw [hmk]
      intro hc
      exact absurd (hinj _ _ hc) (by omega)
    split
    · simp [List.countP_cons, hne]
    · simp

theorem slotLoop_countP_zero_of_ne {α : Type} (q : α → Nat → Bool)
    (mk : α → Nat → ColorFinding) (tag : Nat → SlotRef)
    (hmk : ∀ x i, (mk x i).property = tag i) (tgt : SlotRef)
    (hne : ∀ j, tag j ≠ tgt) :
    ∀ (xs : List α) (k : Nat),
      (slotLoop q mk xs k).countP (fun f => decide (f.property = tgt)) = 0 := by
  intro xs k
  rw [List.countP_eq_zero]
  intro f hf
  rcases slotLoop_mem q mk xs k f hf with ⟨x, i, rfl⟩
  rw [hmk]
  simpa using hne i

theorem fills_tag_inj : ∀ i j : Nat, SlotRef.fills i = SlotRef.fills j → i = j := by
  intro i j h
  injection h

theorem strokes_tag_inj : ∀ i j : Nat, SlotRef.strokes i = SlotRef.strokes j → i = j := by
  intro i j h
  injection h

theorem effect_tag_inj : ∀ i j : Nat, SlotRef.effect i = SlotRef.effect j → i = j := by
  intro i j h
  injection h

theorem fillFindings_countP (d : NodeData) (path : List String)
    (ccat : List ColorVariableDescriptor) (i : Nat) :
    (fillFindings d path ccat).countP (fun f => decide (f.property = SlotRef.fills i)) =
      if fillSlotDetached d i then 1 else 0 := by
  unfold fillFindings fillSlotDetached
  cases d.fills with
  | none => rfl
  | some fills =>
    have h := slotLoop_countP (fillQual d) (mkFillFinding d path ccat) SlotRef.fills
      (fun _ _ => rfl) fills_tag_inj fills 0 i
    rwa [Nat.zero_add] at h

theorem strokeFindings_countP (d : NodeData) (path : List String)
    (ccat : List ColorVariableDescriptor) (i : Nat) :
    (strokeFindings d path ccat).countP
        (fun f => decide (f.property = SlotRef.strokes i)) =
      if strokeSlotDetached d i then 1 else 0 := by
  unfold strokeFindings strokeSlotDetached
  cases d.strokes with
  | none => rfl
  | some strokes =>
    have h := slotLoop_countP (strokeQual d) (mkStrokeFinding d path ccat) SlotRef.strokes
      (fun _ _ => rfl) strokes_tag_inj strokes 0 i
    rwa [Nat.zero_add] at h

theorem effectFindings_countP (d : NodeData) (path : List String) (i : Nat) :
    (effectFindings d path).countP (fun f => decide (f.property = SlotRef.effect i)) =
      if effectSlotDetached d i then 1 else 0 := by
  unfold effectFindings effectSlotDetached
  cases d.effects with
  | none => rfl
  | some effects =>
    have h := slotLoop_countP (effectQual d) (fun _ i => mkEffectFinding d path i)
      SlotRef.effect (fun _ _ => rfl) effect_tag_inj effects 0 i
    rwa [Nat.zero_add] at h

theorem fillFindings_countP_strokes (d : NodeData) (path : List String)
    (ccat : List ColorVariableDescriptor) (i : Nat) :
    (fillFindings d path ccat).countP
      (fun f => decide (f.property = SlotRef.strokes i)) = 0 := by
  unfold fillFindings
  cases d.fills with
  | none => rfl
  | some fills =>
    exact slotLoop_countP_zero_of_ne (fillQual d) (mkFillFinding d path ccat)
      SlotRef.fills (fun _ _ => rfl) (SlotRef.strokes i)
      (fun j h => SlotRef.noConfusion h) fills 0

theorem fillFindings_countP_effect (d : NodeData) (path : List String)
    (ccat : List ColorVariableDescriptor) (i : Nat) :
    (fillFindings d path ccat).countP
      (fun f => decide (f.property = SlotRef.effect i)) = 0 := by
  unfold fillFindings
  cases d.fills with
  | none => rfl
  | some fills =>
    exact slotLoop_countP_zero_of_ne (fillQual d) (mkFillFinding d path ccat)
      SlotRef.fills (fun _ _ => rfl) (SlotRef.effect i)
      (fun j h => SlotRef.noConfusion h) fills 0

theorem strokeFindings_countP_fills (d : NodeData) (path : List String)
    (ccat : List ColorVariableDescriptor) (i : Nat) :
    (strokeFindings d path ccat).countP
      (fun f => decide (f.property = SlotRef.fills i)) = 0 := by
  unfold strokeFindings
  cases d.strokes with
  | none => rfl
  | some strokes =>
    exact slotLoop_countP_zero_of_ne (strokeQual d) (mkStrokeFinding d path ccat)
      SlotRef.strokes (fun _ _ => rfl) (SlotRef.fills i)
      (fun j h => SlotRef.noConfusion h) strokes 0

theorem strokeFindings_countP_effect (d : NodeData) (path : List String)
    (ccat : List ColorVariableDescriptor) (i : Nat) :
    (strokeFindings d path ccat).countP
      (fun f => decide (f.property = SlotRef.effect i)) = 0 := by
  unfold strokeFindings
  cases d.strokes with
  | none => rfl
  | some strokes =>
    exact slotLoop_countP_zero_of_ne (strokeQual d) (mkStrokeFinding d path ccat)
      SlotRef.strokes (fun _ _ => rfl) (SlotRef.effect i)
      (fun j h => SlotRef.noConfusion h) strokes 0

theorem effectFindings_countP_fills (d : NodeData) (path : List String) (i : Nat) :
    (effectFindings d path).countP
      (fun f => decide (f.property = SlotRef.fills i)) = 0 := by
  unfold effectFindings
  cases d.effects with
  | none => rfl
  | some effects =>
    exact slotLoop_countP_zero_of_ne (effectQual d) (fun _ i => mkEffectFinding d path i)
      SlotRef.effect (fun _ _ => rfl) (SlotRef.fills i)
      (fun j h => SlotRef.noConfusion h) effects 0

theorem effectFindings_countP_strokes (d : NodeData) (path : List String) (i : Nat) :
    (effectFindings d path).countP
      (fun f => decide (f.property = SlotRef.strokes i)) = 0 := by
  unfold effectFindings
  cases d.effects with
  | none => rfl
  | some effects =>
    exact slotLoop_countP_zero_of_ne (effectQual d) (fun _ i => mkEffectFinding d path i)
      SlotRef.effect (fun _ _ => rfl) (SlotRef.strokes i)
      (fun j h => SlotRef.noConfusion h) effects 0

theorem colorFindingsOfVisit_id {ccat : List ColorVariableDescriptor} {v : Visit}
    {f : ColorFinding} (h : f ∈ colorFindingsOfVisit ccat v) : f.id = v.data.id := by
  unfold colorFindingsOfVisit at h
  split at h
  · rcases List.mem_append.mp h with h' | h'
    · rcases List.mem_append.mp h' with h'' | h''
      · unfold fillFindings at h''
        rcases hf : v.data.fills with _ | fills <;> rw [hf] at h''
        · exact absurd h'' (List.not_mem_nil _)
        · rcases slotLoop_mem _ _ _ _ _ h'' with ⟨x, i, rfl⟩; rfl
      · unfold strokeFindings at h''
        rcases hf : v.data.strokes with _ | strokes <;> rw [hf] at h''
        · exact absurd h'' (List.not_mem_nil _)
        · rcases slotLoop_mem _ _ _ _ _ h'' with ⟨x, i, rfl⟩; rfl
    · unfold effectFindings at h'
      rcases hf : v.data.effects with _ | effects <;> rw [hf] at h'
      · exact absurd h' (List.not_mem_nil _)
      · rcases slotLoop_mem _ _ _ _ _ h' with ⟨x, i, rfl⟩; rfl
  · exact absurd h (List.not_mem_nil _)

theorem textFindingsOfVisit_id {tcat : List TextStyleDescriptor} {v : Visit}
    {f : TextFinding} (h : f ∈ textFindingsOfVisit tcat v) : f.id = v.data.id := by
  unfold textFindingsOfVisit at h
  split at h
  · rw [List.mem_singleton] at h; rw [h]; rfl
  · exact absurd h (List.not_mem_nil _)

theorem countP_flatMap_zero {α β : Type} (p : β → Bool) (f : α → List β) :
    ∀ (vs : List α), (∀ w ∈ vs, (f w).countP p = 0) →
      (vs.flatMap f).countP p = 0
  | [], _ => rfl
  | w :: vs, h => by
    rw [List.flatMap_cons, List.countP_append, h w (List.mem_cons_self _ _),
      countP_flatMap_zero p f vs (fun w' hw' => h w' (List.mem_cons_of_mem _ hw'))]

theorem countP_flatMap_single {α β : Type} (p : β → Bool) (f : α → List β)
    (key : α → String) :
    ∀ (vs : List α), (vs.map key).Nodup → ∀ v, v ∈ vs →
      (∀ w ∈ vs, w ≠ v → (f w).countP p = 0) →
      (vs.flatMap f).countP p = (f v).countP p
  | [], _, v, hv, _ => absurd hv (List.not_mem_nil _)
  | w :: vs, hnodup, v, hv, hzero => by
    rw [List.map_cons, List.nodup_cons] at hnodup
    rw [List.flatMap_cons, List.countP_append]
    rcases List.mem_cons.mp hv with rfl | hv'
    · rw [countP_flatMap_zero p f vs, Nat.add_zero]
      intro w' hw'
      have hne : w' ≠ v := by
        intro hh
        exact hnodup.1 (hh ▸ List.mem_map_of_mem key hw')
      exact hzero w' (List.mem_cons_of_mem _ hw') hne
    · have hwv : w ≠ v := by
        intro hh
        exact hnodup.1 (by rw [hh]; exact List.mem_map_of_mem key hv')
      rw [hzero w (List.mem_cons_self _ _) hwv,
        countP_flatMap_single p f key vs hnodup.2 v hv'
          (fun w' hw' hne => hzero w' (List.mem_cons_of_mem _ hw') hne)]
      simp

theorem updateSummary_text (res : ScanResults) :
    (updateSummary res).detachedTextStyles = res.detachedTextStyles := rfl

theorem updateSummary_vars (res : ScanResults) :
    (updateSummary res).detachedVariables = res.detachedVariables := rfl

theorem updateSummary_layers (res : ScanResults) :
    (updateSummary res).detachedLayers = res.detachedLayers := rfl

theorem scan_of_ne_nil {roots : List Node} (h : roots ≠ [])
    (ancestors : List Frame) (tcat : List TextStyleDescriptor)
    (ccat : List ColorVariableDescriptor) :
    scanForDetachedElements roots ancestors tcat ccat =
      updateSummary (performScan roots ancestors tcat ccat) := by
  unfold scanForDetachedElements
  rw [if_neg (by simpa using h)]

theorem scan_text {roots : List Node} (h : roots ≠ []) (ancestors : List Frame)
    (tcat : List TextStyleDescriptor) (ccat : List ColorVariableDescriptor) :
    (scanForDetachedElements roots ancestors tcat ccat).detachedTextStyles =
      (scanVisits roots ancestors).flatMap (textFindingsOfVisit tcat) := by
  rw [scan_of_ne_nil h, updateSummary_text, performScan_eq_applyVisits,
    applyVisits_text]
  rfl

theorem scan_vars {roots : List Node} (h : roots ≠ []) (ancestors : List Frame)
    (tcat : List TextStyleDescriptor) (ccat : List ColorVariableDescriptor) :
    (scanForDetachedElements roots ancestors tcat ccat).detachedVariables =
      (scanVisits roots ancestors).flatMap (colorFindingsOfVisit ccat) := by
  rw [scan_of_ne_nil h, updateSummary_vars, performScan_eq_applyVisits,
    applyVisits_vars]
  rfl

theorem scan_layers_mem {roots : List Node} (h : roots ≠ []) {ancestors : List Frame}
    {tcat : List TextStyleDescriptor} {ccat : List ColorVariableDescriptor}
    {lf : LayerFinding}
    (hm : lf ∈ (scanForDetachedElements roots ancestors tcat ccat).detachedLayers) :
    ∃ v ∈ scanVisits roots ancestors, lf.id = v.data.id ∧
      ¬ (v.data.type = NodeType.TEXT ∧ textStyleDetached v.data = true) := by
  rw [scan_of_ne_nil h, updateSummary_layers, performScan_eq_applyVisits] at hm
  rcases applyVisits_layers_mem hm with h' | h'
  · exact absurd h' (List.not_mem_nil _)
  · exact h'

mutual

theorem visits_depth_le :
    ∀ (n : Node) (depth : Nat) (ancestors : List Frame),
      ∀ v ∈ visits n depth ancestors, depth ≤ v.depth ∧ v.depth ≤ 20
  | .node d cs, depth, ancestors => by
    intro v hv
    rw [visits] at hv
    by_cases h1 : depth > 20
    · rw [if_pos h1] at hv
      exact absurd hv (List.not_mem_nil _)
    · rw [if_neg h1] at hv
      by_cases h2 : d.throws
      · rw [if_pos h2] at hv
        exact absurd hv (List.not_mem_nil _)
      · rw [if_neg h2] at hv
        rcases List.mem_cons.mp hv with rfl | hv'
        · refine ⟨Nat.le_refl _, ?_⟩
          show depth ≤ 20
          omega
        · have := visitsList_depth_le cs 100 (depth + 1) _ v hv'
          exact ⟨by omega, this.2⟩

theorem visitsList_depth_le :
    ∀ (cs : List Node) (k depth : Nat) (ancestors : List Frame),
      ∀ v ∈ visitsList cs k depth ancestors, depth ≤ v.depth ∧ v.depth ≤ 20
  | [], k, depth, ancestors => by
    intro v hv
    cases k <;> exact absurd hv (List.not_mem_nil _)
  | c :: cs, 0, depth, ancestors => by
    intro v hv
    exact absurd hv (List.not_mem_nil _)
  | c :: cs, k + 1, depth, ancestors => by
    intro v hv
    rw [visitsList] at hv
    rcases List.mem_append.mp hv with h | h
    · exact visits_depth_le c depth ancestors v h
    · exact visitsList_depth_le cs k depth ancestors v h

end

theorem scanVisits_depth_le {roots : List Node} {ancestors : List Frame} :
    ∀ v ∈ scanVisits roots ancestors, v.depth ≤ 20 := by
  suffices h : ∀ (rs : List Node) (acc : List Visit),
      (∀ v ∈ acc, v.depth ≤ 20) →
      ∀ v ∈ rs.foldl (fun a n => a ++ visits n 0 ancestors) acc, v.depth ≤ 20 by
    exact h roots [] (fun v hv => absurd hv (List.not_mem_nil _))
  intro rs
  induction rs with
  | nil => intro acc hacc v hv; exact hacc v hv
  | cons r rs ih =>
    intro acc hacc v hv
    refine ih _ ?_ v hv
    intro w hw
    rcases List.mem_append.mp hw with h | h
    · exact hacc w h
    · exact (visits_depth_le r 0 ancestors w h).2

theorem traverseNode_throws (res : ScanResults) (tcat : List TextStyleDescriptor)
    (ccat : List ColorVariableDescriptor) (d : NodeData) (cs : List Node)
    (depth : Nat) (ancestors : List Frame) (h : d.throws = true) :
    traverseNode res tcat ccat (Node.node d cs) depth ancestors = res := by
  rw [traverseNode]
  by_cases h1 : depth > 20
  · rw [if_pos h1]
  · rw [if_neg h1, if_pos h]

instance : IsTotal ColorMatch colorMatchLE :=
  ⟨fun a b => le_total a.colorDistance b.colorDistance⟩

instance : IsTrans ColorMatch colorMatchLE :=
  ⟨fun _ _ _ hab hbc => le_trans hab hbc⟩


/-- When the exact tier is non-empty, it is returned as-is, in catalog order. -/
theorem findMatchingColorVariables_of_exact {color : RGBA}
    {catalog : List ColorVariableDescriptor}
    (h : catalog.filter (exactColorPred color) ≠ []) :
    findMatchingColorVariables color catalog =
      (catalog.filter (exactColorPred color)).map (mkColorMatch color ColorTier.exact) := by
  unfold findMatchingColorVariables
  rw [if_neg]
  simp [List.isEmpty_iff, h]

/-- When the exact tier is empty, the similar tier is returned, stably sorted
by summed channel distance. -/
theorem findMatchingColorVariables_of_no_exact {color : RGBA}
    {catalog : List ColorVariableDescriptor}
    (h : catalog.filter (exactColorPred color) = []) :
    findMatchingColorVariables color catalog =
      ((catalog.filter (similarColorPred color)).map
        (mkColorMatch color ColorTier.similar)).insertionSort colorMatchLE := by
  unfold findMatchingColorVariables
  rw [if_pos]
  simp [List.isEmpty_iff, h]

/-- C2 (amended): a catalog entry is an exact match iff every per-channel
absolute difference is strictly below 0.004 (the code's approximation of
1/255; so 0.0039 is exact and 0.005 is not); only when the exact tier is
empty does the matcher return similar matches, exactly the entries with every
per-channel difference at most 0.1, sorted ascending by summed absolute
channel distance; exact and similar candidates never mix in one result. -/
theorem C2_color_tiering (color : RGBA) (catalog : List ColorVariableDescriptor) :
    (∀ v ∈ catalog, ∀ c', v.resolvedColor = some c' →
      (exactColorPred color v = true ↔
        |c'.r - color.r| < 0.004 ∧ |c'.g - color.g| < 0.004 ∧
          |c'.b - color.b| < 0.004)) ∧
    (∀ v ∈ catalog, ∀ c', v.resolvedColor = some c' →
      (similarColorPred color v = true ↔
        |c'.r - color.r| ≤ 0.1 ∧ |c'.g - color.g| ≤ 0.1 ∧ |c'.b - color.b| ≤ 0.1)) ∧
    (catalog.filter (exactColorPred color) ≠ [] →
      findMatchingColorVariables color catalog =
        (catalog.filter (exactColorPred color)).map (mkColorMatch color ColorTier.exact)) ∧
    (catalog.filter (exactColorPred color) = [] →
      (findMatchingColorVariables color catalog).Perm
        ((catalog.filter (similarColorPred color)).map
          (mkColorMatch color ColorTier.similar)) ∧
      List.Sorted colorMatchLE (findMatchingColorVariables color catalog)) ∧
    (∀ m ∈ findMatchingColorVariables color catalog,
      ∀ m' ∈ findMatchingColorVariables color catalog,
        m.matchType = m'.matchType) := by
  refine ⟨?_, ?_, ?_, ?_, ?_⟩
  · intro v hv c' hc
    simp [exactColorPred, hc, and_assoc]
  · intro v hv c' hc
    simp [similarColorPred, hc, and_assoc]
  · exact fun h => findMatchingColorVariables_of_exact h
  · intro h
    rw [findMatchingColorVariables_of_no_exact h]
    exact ⟨List.perm_insertionSort _ _, List.sorted_insertionSort _ _⟩
  · intro m hm m' hm'
    by_cases h : catalog.filter (exactColorPred color) = []
    · rw [findMatchingColorVariables_of_no_exact h] at hm hm'
      rw [(List.perm_insertionSort _ _).mem_iff] at hm hm'
      rcases List.mem_map.mp hm with ⟨v, _, rfl⟩
      rcases List.mem_map.mp hm' with ⟨v', _, rfl⟩
      rfl
    · rw [findMatchingColorVariables_of_exact h] at hm hm'
      rcases List.mem_map.mp hm with ⟨v, _, rfl⟩
      rcases List.mem_map.mp hm' with ⟨v', _, rfl⟩
      rfl

/-- Concrete catalog used to instantiate the C2 theorem. -/
def c2far : ColorVariableDescriptor :=
  { id := "v05", name := "far", remote := false,
    resolvedColor := some { r := 1/20, g := 0, b := 0 } }

/-- A nearer concrete catalog entry. -/
def c2near : ColorVariableDescriptor :=
  { id := "v02", name := "near", remote := false,
    resolvedColor := some { r := 1/50, g := 0, b := 0 } }

/-- Concrete scanned color. -/
def c2color : RGBA := { r := 0, g := 0, b := 0 }

/-- Concrete catalog: the farther entry listed first. -/
def c2catalog : List ColorVariableDescriptor := [c2far, c2near]

/-- C2 witness: on a concrete two-entry catalog with no exact hit, the
matcher's result is a distance-sorted permutation of the similar entries. -/
theorem C2_witness :
    (c2catalog.filter (exactColorPred c2color) = []) ∧
    ((findMatchingColorVariables c2color c2catalog).Perm
        ((c2catalog.filter (similarColorPred c2color)).map
          (mkColorMatch c2color ColorTier.similar)) ∧
      List.Sorted colorMatchLE (findMatchingColorVariables c2color c2catalog)) := by
  have h : c2catalog.filter (exactColorPred c2color) = [] := by
    have h1 : exactColorPred c2color c2far = false := by
      simp only [exactColorPred, c2color, c2far]
      norm_num
      exact le_trans (by norm_num) (le_abs_self _)
    have h2 : exactColorPred c2color c2near = false := by
      simp only [exactColorPred, c2color, c2near]
      norm_num
      exact le_trans (by norm_num) (le_abs_self _)
    simp [c2catalog, List.filter, h1, h2]
  exact ⟨h, (C2_color_tiering c2color c2catalog).2.2.2.1 h⟩

/-- C10: color matching reads only the r, g, b channels, so two input colors
agreeing on r, g and b receive identical match lists regardless of alpha;
slot opacity is stored on the finding but never consulted by the matcher. -/
theorem C10_alpha_opacity_irrelevant (c1 c2 : RGBA)
    (catalog : List ColorVariableDescriptor)
    (hr : c1.r = c2.r) (hg : c1.g = c2.g) (hb : c1.b = c2.b) :
    findMatchingColorVariables c1 catalog = findMatchingColorVariables c2 catalog := by
  cases c1
  cases c2
  simp only at hr hg hb
  subst hr; subst hg; subst hb
  rfl

/-- C10 witness: a fully opaque and an alpha-less copy of the same RGB color
get identical match lists on a concrete catalog. -/
theorem C10_witness :
    ({ r := 1/2, g := 1/4, b := 0, a := some 1 : RGBA }.r =
      { r := 1/2, g := 1/4, b := 0, a := none : RGBA }.r) ∧
    findMatchingColorVariables { r := 1/2, g := 1/4, b := 0, a := some 1 } c2catalog =
      findMatchingColorVariables { r := 1/2, g := 1/4, b := 0, a := none } c2catalog :=
  ⟨rfl, C10_alpha_opacity_irrelevant _ _ c2catalog rfl rfl rfl⟩

/-- C4 (amended): `findMatchingTextStyles` returns candidates only from the
highest non-empty tier — exact (family, style and font size identical, and
line height and letter spacing each either absent on both sides or carrying
numeric values differing by strictly less than 0.1; two identical AUTO
value-absent objects do not qualify, because the JS reference equality and
the NaN comparison are both false), else partial (family, style and font size
identical), else fuzzy (family identical only) — all matches of one result
share one tier, and ties within a tier keep the catalog's order (each tier is
a filter of the catalog). -/
theorem C4_text_tiering (d : NodeData) (tcat : List TextStyleDescriptor)
    (hfont : d.fontName.isNone = false) (hsize : jsFalsyNum d.fontSize = false) :
    (tcat.filter (exactTextMatch d) ≠ [] →
      findMatchingTextStyles d tcat =
        (tcat.filter (exactTextMatch d)).map (mkTextMatch TextTier.exact)) ∧
    (tcat.filter (exactTextMatch d) = [] → tcat.filter (partialTextMatch d) ≠ [] →
      findMatchingTextStyles d tcat =
        (tcat.filter (partialTextMatch d)).map (mkTextMatch TextTier.partialTier)) ∧
    (tcat.filter (exactTextMatch d) = [] → tcat.filter (partialTextMatch d) = [] →
      findMatchingTextStyles d tcat =
        (tcat.filter (fuzzyTextMatch d)).map (mkTextMatch TextTier.fuzzy)) ∧
    (∀ m ∈ findMatchingTextStyles d tcat, ∀ m' ∈ findMatchingTextStyles d tcat,
      m.matchType = m'.matchType) := by
  have hbase : findMatchingTextStyles d tcat =
      (if !((tcat.filter (exactTextMatch d)).map (mkTextMatch TextTier.exact)).isEmpty
       then (tcat.filter (exactTextMatch d)).map (mkTextMatch TextTier.exact)
       else if !((tcat.filter (partialTextMatch d)).map
            (mkTextMatch TextTier.partialTier)).isEmpty
       then (tcat.filter (partialTextMatch d)).map (mkTextMatch TextTier.partialTier)
       else (tcat.filter (fuzzyTextMatch d)).map (mkTextMatch TextTier.fuzzy)) := by
    unfold findMatchingTextStyles
    rw [if_neg]
    simp [hfont, hsize]
  refine ⟨?_, ?_, ?_, ?_⟩
  · intro h
    rw [hbase, if_pos]
    simp [List.isEmpty_iff, h]
  · intro h hp
    rw [hbase, if_neg, if_pos]
    · simp [List.isEmpty_iff, hp]
    · simp [List.isEmpty_iff, h]
  · intro h hp
    rw [hbase, if_neg, if_neg]
    · simp [List.isEmpty_iff, hp]
    · simp [List.isEmpty_iff, h]
  · have h4 : ∃ t : TextTier, ∀ m ∈ findMatchingTextStyles d tcat, m.matchType = t := by
      rw [hbase]
      split
      · refine ⟨TextTier.exact, fun m hm => ?_⟩
        rcases List.mem_map.mp hm with ⟨s, _, rfl⟩
        rfl
      · split
        · refine ⟨TextTier.partialTier, fun m hm => ?_⟩
          rcases List.mem_map.mp hm with ⟨s, _, rfl⟩
          rfl
        · refine ⟨TextTier.fuzzy, fun m hm => ?_⟩
          rcases List.mem_map.mp hm with ⟨s, _, rfl⟩
          rfl
    intro m hm m' hm'
    rcases h4 with ⟨t, ht⟩
    rw [ht m hm, ht m' hm']

/-- Concrete TEXT node for the C4 witness. -/
def c4node : NodeData :=
  { id := "t1", name := "headline", type := NodeType.TEXT,
    fontName := some { family := "Inter", style := "Bold" },
    fontSize := some 16, lineHeight := some { value := some 24 } }

/-- Concrete catalog style whose line height is 16 units away. -/
def c4styleA : TextStyleDescriptor :=
  { id := "sA", name := "H1", fontName := some { family := "Inter", style := "Bold" },
    fontSize := some 16, lineHeight := some { value := some 40 }, remote := false }

/-- Concrete catalog style with no line height. -/
def c4styleB : TextStyleDescriptor :=
  { id := "sB", name := "H2", fontName := some { family := "Inter", style := "Bold" },
    fontSize := some 16, remote := true }

/-- Concrete text style catalog. -/
def c4catalog : List TextStyleDescriptor := [c4styleA, c4styleB]

/-- C4 witness: a concrete node whose catalog has no exact hit degrades to the
partial tier, returning both partial candidates in catalog order. -/
theorem C4_witness :
    c4node.fontName.isNone = false ∧ jsFalsyNum c4node.fontSize = false ∧
    c4catalog.filter (exactTextMatch c4node) = [] ∧
    c4catalog.filter (partialTextMatch c4node) ≠ [] ∧
    findMatchingTextStyles c4node c4catalog =
      (c4catalog.filter (partialTextMatch c4node)).map
        (mkTextMatch TextTier.partialTier) := by
  have hfont : c4node.fontName.isNone = false := rfl
  have hsize : jsFalsyNum c4node.fontSize = false := by
    simp [jsFalsyNum, c4node]
  have hA : exactTextMatch c4node c4styleA = false := by
    simp [exactTextMatch, c4node, c4styleA, unitValueClose]
    norm_num
  have hB : exactTextMatch c4node c4styleB = false := by
    simp [exactTextMatch, c4node, c4styleB, unitValueClose]
  have hexact : c4catalog.filter (exactTextMatch c4node) = [] := by
    simp [c4catalog, List.filter, hA, hB]
  have hpA : partialTextMatch c4node c4styleA = true := by
    simp [partialTextMatch, c4node, c4styleA]
  have hpart : c4catalog.filter (partialTextMatch c4node) ≠ [] := by
    simp [c4catalog, List.filter, hpA]
  exact ⟨hfont, hsize, hexact, hpart,
    (C4_text_tiering c4node c4catalog hfont hsize).2.1 hexact hpart⟩

/-- The comparator of `getAvailableTextStyles` (src/code.js:856-861): local
entries first, then by name; JS sort with this comparator is a stable sort
along this total preorder, which `List.insertionSort` models exactly. -/
def catalogStyleLE (a b : TextStyleDescriptor) : Prop :=
  (a.remote = b.remote ∧ a.name ≤ b.name) ∨ (a.remote = false ∧ b.remote = true)

instance : DecidableRel catalogStyleLE := fun a b =>
  inferInstanceAs (Decidable ((a.remote = b.remote ∧ a.name ≤ b.name) ∨
    (a.remote = false ∧ b.remote = true)))

instance : IsTotal TextStyleDescriptor catalogStyleLE :=
  ⟨fun a b => by
    unfold catalogStyleLE
    rcases ha : a.remote <;> rcases hb : b.remote
    · rcases le_total a.name b.name with h | h
      · exact Or.inl (Or.inl ⟨rfl, h⟩)
      · exact Or.inr (Or.inl ⟨rfl, h⟩)
    · exact Or.inl (Or.inr ⟨rfl, rfl⟩)
    · exact Or.inr (Or.inr ⟨rfl, rfl⟩)
    · rcases le_total a.name b.name with h | h
      · exact Or.inl (Or.inl ⟨rfl, h⟩)
      · exact Or.inr (Or.inl ⟨rfl, h⟩)⟩

instance : IsTrans TextStyleDescriptor catalogStyleLE :=
  ⟨fun a b c hab hbc => by
    unfold catalogStyleLE at *
    rcases hab with ⟨h1, h2⟩ | ⟨h1, h2⟩ <;> rcases hbc with ⟨h3, h4⟩ | ⟨h3, h4⟩
    · exact Or.inl ⟨h1.trans h3, h2.trans h4⟩
    · exact Or.inr ⟨h1.trans h3, h4⟩
    · exact Or.inr ⟨h1, h3 ▸ h2⟩
    · rw [h2] at h3
      exact absurd h3 (by simp)⟩

/-- The sorting step of `getAvailableTextStyles` (src/code.js:855-861); the
`discovered` list stands for the styles accumulated by `discoverTextStyles`
(or the local-only fallback). -/
def getAvailableTextStyles (discovered : List TextStyleDescriptor) :
    List TextStyleDescriptor :=
  discovered.insertionSort catalogStyleLE

/-- The comparator of `getAvailableColorVariables` (src/code.js:1000-1006). -/
def catalogVarLE (a b : ColorVariableDescriptor) : Prop :=
  (a.remote = b.remote ∧ a.name ≤ b.name) ∨ (a.remote = false ∧ b.remote = true)

instance : DecidableRel catalogVarLE := fun a b =>
  inferInstanceAs (Decidable ((a.remote = b.remote ∧ a.name ≤ b.name) ∨
    (a.remote = false ∧ b.remote = true)))

instance : IsTotal ColorVariableDescriptor catalogVarLE :=
  ⟨fun a b => by
    unfold catalogVarLE
    rcases ha : a.remote <;> rcases hb : b.remote
    · rcases le_total a.name b.name with h | h
      · exact Or.inl (Or.inl ⟨rfl, h⟩)
      · exact Or.inr (Or.inl ⟨rfl, h⟩)
    · exact Or.inl (Or.inr ⟨rfl, rfl⟩)
    · exact Or.inr (Or.inr ⟨rfl, rfl⟩)
    · rcases le_total a.name b.name with h | h
      · exact Or.inl (Or.inl ⟨rfl, h⟩)
      · exact Or.inr (Or.inl ⟨rfl, h⟩)⟩

instance : IsTrans ColorVariableDescriptor catalogVarLE :=
  ⟨fun a b c hab hbc => by
    unfold catalogVarLE at *
    rcases hab with ⟨h1, h2⟩ | ⟨h1, h2⟩ <;> rcases hbc with ⟨h3, h4⟩ | ⟨h3, h4⟩
    · exact Or.inl ⟨h1.trans h3, h2.trans h4⟩
    · exact Or.inr ⟨h1.trans h3, h4⟩
    · exact Or.inr ⟨h1, h3 ▸ h2⟩
    · rw [h2] at h3
      exact absurd h3 (by simp)⟩

/-- The sorting step of `getAvailableColorVariables` (src/code.js:1000-1006). -/
def getAvailableColorVariables (discovered : List ColorVariableDescriptor) :
    List ColorVariableDescriptor :=
  discovered.insertionSort catalogVarLE

/-- C9: the catalogs returned by `getAvailableTextStyles` and
`getAvailableColorVariables` are permutations of the discovered entries in
which every local entry precedes every remote entry and names are
nondecreasing within each group; as pure functions of the discovered list the
orderings are stable given identical input. -/
theorem C9_catalog_ordering (styles : List TextStyleDescriptor)
    (vars : List ColorVariableDescriptor) :
    ((getAvailableTextStyles styles).Perm styles ∧
      List.Pairwise
        (fun a b => (a.remote = false ∨ b.remote = true) ∧
          (a.remote = b.remote → a.name ≤ b.name))
        (getAvailableTextStyles styles)) ∧
    ((getAvailableColorVariables vars).Perm vars ∧
      List.Pairwise
        (fun a b => (a.remote = false ∨ b.remote = true) ∧
          (a.remote = b.remote → a.name ≤ b.name))
        (getAvailableColorVariables vars)) := by
  refine ⟨⟨List.perm_insertionSort _ _, ?_⟩, ⟨List.perm_insertionSort _ _, ?_⟩⟩
  · refine (List.sorted_insertionSort catalogStyleLE styles).imp ?_
    intro a b h
    rcases h with ⟨h1, h2⟩ | ⟨h1, h2⟩
    · constructor
      · rcases hb : b.remote
        · rw [h1, hb]
          exact Or.inl rfl
        · exact Or.inr rfl
      · exact fun _ => h2
    · exact ⟨Or.inl h1, fun hc => absurd (hc ▸ h2 : a.remote = true) (by rw [h1]; simp)⟩
  · refine (List.sorted_insertionSort catalogVarLE vars).imp ?_
    intro a b h
    rcases h with ⟨h1, h2⟩ | ⟨h1, h2⟩
    · constructor
      · rcases hb : b.remote
        · rw [h1, hb]
          exact Or.inl rfl
        · exact Or.inr rfl
      · exact fun _ => h2
    · exact ⟨Or.inl h1, fun hc => absurd (hc ▸ h2 : a.remote = true) (by rw [h1]; simp)⟩

/-- C5: scanning an empty node set returns an immediate empty result whose
summary has `isEmpty = true` and total 0, while scanning any non-empty node
set yields `isEmpty = false` with the total equal to 0 exactly when all three
finding lists are empty — so the two outcomes are distinguishable. -/
theorem C5_empty_scope_distinction (ancestors : List Frame)
    (tcat : List TextStyleDescriptor) (ccat : List ColorVariableDescriptor)
    (roots : List Node) (h : roots ≠ []) :
    ((scanForDetachedElements [] ancestors tcat ccat).summary.isEmpty = true ∧
      (scanForDetachedElements [] ancestors tcat ccat).summary.totalDetached = 0) ∧
    ((scanForDetachedElements roots ancestors tcat ccat).summary.isEmpty = false ∧
      ((scanForDetachedElements roots ancestors tcat ccat).summary.totalDetached = 0 ↔
        (scanForDetachedElements roots ancestors tcat ccat).detachedTextStyles = [] ∧
        (scanForDetachedElements roots ancestors tcat ccat).detachedVariables = [] ∧
        (scanForDetachedElements roots ancestors tcat ccat).detachedLayers = [])) := by
  refine ⟨⟨rfl, rfl⟩, ?_, ?_⟩
  · rw [scan_of_ne_nil h]
    show (performScan roots ancestors tcat ccat).summary.isEmpty = false
    rw [performScan_eq_applyVisits, applyVisits_summary]
    rfl
  · rw [scan_of_ne_nil h]
    show (updateSummary (performScan roots ancestors tcat ccat)).summary.totalDetached
        = 0 ↔ _
    unfold updateSummary
    simp [List.length_eq_zero, and_assoc]

/-- Concrete fully-compliant root node for the C5 witness. -/
def c5root : Node :=
  .node { id := "c", name := "card", type := NodeType.COMPONENT } []

/-- C5 witness: the empty scan and a scan of one fully-compliant component
node instantiate the empty-scope distinction. -/
theorem C5_witness :
    ([c5root] ≠ ([] : List Node)) ∧
    (((scanForDetachedElements [] [] [] []).summary.isEmpty = true ∧
      (scanForDetachedElements [] [] [] []).summary.totalDetached = 0) ∧
     ((scanForDetachedElements [c5root] [] [] []).summary.isEmpty = false ∧
      ((scanForDetachedElements [c5root] [] [] []).summary.totalDetached = 0 ↔
        (scanForDetachedElements [c5root] [] [] []).detachedTextStyles = [] ∧
        (scanForDetachedElements [c5root] [] [] []).detachedVariables = [] ∧
        (scanForDetachedElements [c5root] [] [] []).detachedLayers = []))) :=
  ⟨by simp, C5_empty_scope_distinction [] [] [] [c5root] (by simp)⟩

/-- Attributes of a node whose classification throws. -/
def c6parentData : NodeData :=
  { id := "p1", name := "parent", type := NodeType.FRAME, throws := true }

/-- A detached TEXT child under the throwing node. -/
def c6child : Node :=
  .node { id := "c1", name := "child-text", type := NodeType.TEXT,
          textStyleId := .empty } []

/-- The throwing node with its detached child. -/
def c6parent : Node := .node c6parentData [c6child]

/-- A detached TEXT sibling of the throwing node. -/
def c6sibling : Node :=
  .node { id := "s1", name := "sib-text", type := NodeType.TEXT,
          textStyleId := .empty } []

/-- C6 counterexample: the per-node try block of `traverseNode` spans the
recursive descent (src/code.js:1521-1872), so an error thrown while
classifying a node also skips that node's children: scanning a throwing
parent whose child is a detached TEXT node yields no finding for the child,
while the parent's sibling is still scanned — the claim's assertion that
traversal continues to the failing node's children is false. -/
theorem C6_counterexample :
    c6parentData.throws = true ∧
    c6child.data.type = NodeType.TEXT ∧ textStyleDetached c6child.data = true ∧
    (scanForDetachedElements [c6parent, c6sibling] [] [] []).detachedTextStyles.map
        (fun f => f.id) = ["s1"] := by
  refine ⟨rfl, rfl, rfl, ?_⟩
  rw [scan_text (by simp)]
  simp [scanVisits, visits, visitsList, c6parent, c6sibling, c6parentData, c6child,
    textFindingsOfVisit, textStyleDetached, mkTextFinding]

/-- C6 (amended): an error thrown while evaluating a node's classification
rules is caught and treated as no finding for that node; traversal continues
with the node's siblings (the scan never fails as a whole), but the failing
node's own children are skipped because the try block encloses the descent. -/
theorem C6_error_containment :
    (∀ (res : ScanResults) (tcat : List TextStyleDescriptor)
        (ccat : List ColorVariableDescriptor) (d : NodeData) (cs : List Node)
        (depth : Nat) (ancestors : List Frame), d.throws = true →
      traverseNode res tcat ccat (Node.node d cs) depth ancestors = res) ∧
    (∀ (xs ys : List Node) (d : NodeData) (cs : List Node) (ancestors : List Frame)
        (tcat : List TextStyleDescriptor) (ccat : List ColorVariableDescriptor),
        d.throws = true →
      performScan (xs ++ Node.node d cs :: ys) ancestors tcat ccat =
        performScan (xs ++ ys) ancestors tcat ccat) := by
  constructor
  · exact fun res tcat ccat d cs depth anc h =>
      traverseNode_throws res tcat ccat d cs depth anc h
  · intro xs ys d cs anc tcat ccat h
    unfold performScan
    rw [List.foldl_append, List.foldl_cons,
      traverseNode_throws _ _ _ _ _ _ _ h, ← List.foldl_append]

/-- C6 witness: a concrete throwing node contributes nothing and drops out of
a concrete top-level scan without affecting its sibling. -/
theorem C6_witness :
    c6parentData.throws = true ∧
    traverseNode emptyResults [] [] c6parent 0 [] = emptyResults ∧
    performScan [c6parent, c6sibling] [] [] [] = performScan [c6sibling] [] [] [] :=
  ⟨rfl,
    C6_error_containment.1 emptyResults [] [] c6parentData [c6child] 0 [] rfl,
    C6_error_containment.2 [] [c6sibling] c6parentData [c6child] [] [] [] rfl⟩

/-- C7: `traverseNode` (a total function here) stops descending once
`depth > 20`: every visit of a scan happens at depth at most 20, and every
finding of any category carries the id of a node visited at depth at most
20. -/
theorem C7_depth_bound (roots : List Node) (ancestors : List Frame)
    (tcat : List TextStyleDescriptor) (ccat : List ColorVariableDescriptor)
    (hroots : roots ≠ []) :
    (∀ (res : ScanResults) (n : Node) (depth : Nat) (anc : List Frame),
      depth > 20 → traverseNode res tcat ccat n depth anc = res) ∧
    (∀ v ∈ scanVisits roots ancestors, v.depth ≤ 20) ∧
    (∀ tf ∈ (scanForDetachedElements roots ancestors tcat ccat).detachedTextStyles,
      ∃ v ∈ scanVisits roots ancestors, tf.id = v.data.id ∧ v.depth ≤ 20) ∧
    (∀ cf ∈ (scanForDetachedElements roots ancestors tcat ccat).detachedVariables,
      ∃ v ∈ scanVisits roots ancestors, cf.id = v.data.id ∧ v.depth ≤ 20) ∧
    (∀ lf ∈ (scanForDetachedElements roots ancestors tcat ccat).detachedLayers,
      ∃ v ∈ scanVisits roots ancestors, lf.id = v.data.id ∧ v.depth ≤ 20) := by
  refine ⟨?_, scanVisits_depth_le, ?_, ?_, ?_⟩
  · intro res n depth anc hd
    cases n with
    | node d cs =>
      rw [traverseNode, if_pos hd]
  · intro tf htf
    rw [scan_text hroots] at htf
    rcases List.mem_flatMap.mp htf with ⟨v, hv, hf⟩
    exact ⟨v, hv, textFindingsOfVisit_id hf, scanVisits_depth_le v hv⟩
  · intro cf hcf
    rw [scan_vars hroots] at hcf
    rcases List.mem_flatMap.mp hcf with ⟨v, hv, hf⟩
    exact ⟨v, hv, colorFindingsOfVisit_id hf, scanVisits_depth_le v hv⟩
  · intro lf hlf
    rcases scan_layers_mem hroots hlf with ⟨v, hv, hid, _⟩
    exact ⟨v, hv, hid, scanVisits_depth_le v hv⟩

/-- Concrete detached TEXT node for the C7 witness. -/
def c7text : Node :=
  .node { id := "t1", name := "t", type := NodeType.TEXT, textStyleId := .empty } []

/-- Concrete root frame for the C7 witness. -/
def c7root : Node :=
  .node { id := "root", name := "root", type := NodeType.FRAME } [c7text]

/-- The text finding the C7 witness scan produces. -/
def c7finding : TextFinding :=
  { id := "t1", name := "t", path := ["t"], characters := "",
    matches' := [], availableTextStyles := [] }

/-- C7 witness: a concrete scan whose text finding is tied to a visit at
depth 1 instantiates the depth bound. -/
theorem C7_witness :
    ([c7root] ≠ ([] : List Node)) ∧
    c7finding ∈ (scanForDetachedElements [c7root] [] [] []).detachedTextStyles ∧
    ∃ v ∈ scanVisits [c7root] [], c7finding.id = v.data.id ∧ v.depth ≤ 20 := by
  have h1 : [c7root] ≠ ([] : List Node) := by simp
  have h2 : c7finding ∈
      (scanForDetachedElements [c7root] [] [] []).detachedTextStyles := by
    rw [scan_text h1]
    simp [scanVisits, visits, visitsList, c7root, c7text, textFindingsOfVisit,
      textStyleDetached, mkTextFinding, findMatchingTextStyles, getNodePath,
      c7finding, jsFalsyNum]
  exact ⟨h1, h2, (C7_depth_bound [c7root] [] [] [] h1).2.2.1 c7finding h2⟩

/-- C8 counterexample: for a node whose ancestor chain is frame-then-page,
`getNodePath` returns only the page name and the node name — the
intermediate ancestor (the page's direct child) is omitted, so the path is
not the full ordered sequence of ancestor names from the page to the node. -/
theorem C8_counterexample :
    getNodePath "icon"
      [{ name := "frame", type := NodeType.FRAME },
       { name := "page-1", type := NodeType.PAGE }] = ["page-1", "icon"] ∧
    (["page-1", "icon"] : List String) ≠ ["page-1", "frame", "icon"] := by
  exact ⟨rfl, by simp⟩

/-- Closed form of `getNodePath` under a PAGE ancestor: the page name, then
the names of the ancestors strictly below the page's direct child (which is
dropped), then the node's own name; a direct child of the page gets just the
page name. -/
theorem getNodePath_eq_of_page (pre : List Frame) :
    ∀ (nodeName : String) (page : Frame) (rest : List Frame),
      (∀ a ∈ pre, a.type ≠ NodeType.PAGE) → page.type = NodeType.PAGE →
      getNodePath nodeName (pre ++ page :: rest) =
        (if pre.isEmpty then [page.name]
         else page.name :: (((pre.dropLast).map Frame.name).reverse ++ [nodeName])) := by
  induction pre with
  | nil =>
    intro n page rest h1 h2
    simp [getNodePath, h2]
  | cons a pre ih =>
    intro n page rest h1 h2
    rw [List.cons_append, getNodePath,
      if_neg (h1 a (List.mem_cons_self _ _)),
      ih a.name page rest (fun b hb => h1 b (List.mem_cons_of_mem _ hb)) h2]
    cases pre with
    | nil => simp
    | cons b pre' => simp

/-- C8 (amended): when the ancestor chain reaches a PAGE, the path is the
page name followed by the ancestor names below the page's direct child (that
topmost ancestor is omitted) and ends with the node's own name; everything
above the page is ignored, so the path never crosses a page boundary. -/
theorem C8_path_shape (nodeName : String) (pre : List Frame) (page : Frame)
    (rest rest' : List Frame) (h1 : ∀ a ∈ pre, a.type ≠ NodeType.PAGE)
    (h2 : page.type = NodeType.PAGE) :
    getNodePath nodeName (pre ++ page :: rest) =
      (if pre.isEmpty then [page.name]
       else page.name :: (((pre.dropLast).map Frame.name).reverse ++ [nodeName])) ∧
    getNodePath nodeName (pre ++ page :: rest) =
      getNodePath nodeName (pre ++ page :: rest') := by
  refine ⟨getNodePath_eq_of_page pre nodeName page rest h1 h2, ?_⟩
  rw [getNodePath_eq_of_page pre nodeName page rest h1 h2,
    getNodePath_eq_of_page pre nodeName page rest' h1 h2]

/-- Concrete mid-level ancestor for the C8 witness. -/
def c8frame : Frame := { name := "frame", type := NodeType.FRAME }

/-- Concrete owning page for the C8 witness. -/
def c8page : Frame := { name := "page-1", type := NodeType.PAGE }

/-- Concrete ancestor above the page for the C8 witness. -/
def c8above : Frame := { name := "above", type := NodeType.DOCUMENT }

/-- C8 witness: a concrete frame-page-document chain instantiates the path
shape and its independence from what lies above the page. -/
theorem C8_witness :
    ((∀ a ∈ [c8frame], a.type ≠ NodeType.PAGE) ∧ c8page.type = NodeType.PAGE) ∧
    (getNodePath "icon" ([c8frame] ++ c8page :: [c8above]) =
      (if ([c8frame] : List Frame).isEmpty then [c8page.name]
       else c8page.name :: ((([c8frame].dropLast).map Frame.name).reverse ++ ["icon"])) ∧
    getNodePath "icon" ([c8frame] ++ c8page :: [c8above]) =
      getNodePath "icon" ([c8frame] ++ c8page :: [])) := by
  have hpre : ∀ a ∈ [c8frame], a.type ≠ NodeType.PAGE := by
    intro a ha
    rw [List.mem_singleton] at ha
    rw [ha]
    simp [c8frame]
  exact ⟨⟨hpre, rfl⟩, C8_path_shape "icon" [c8frame] c8page [c8above] [] hpre rfl⟩

/-- With pairwise-distinct node ids, two visits sharing an id coincide. -/
theorem scanVisits_id_inj {roots : List Node} {ancestors : List Frame}
    (hnodup : ((scanVisits roots ancestors).map (fun w => w.data.id)).Nodup)
    {v w : Visit} (hv : v ∈ scanVisits roots ancestors)
    (hw : w ∈ scanVisits roots ancestors) (h : v.data.id = w.data.id) : v = w :=
  List.inj_on_of_nodup_map hnodup hv hw h

/-- C1 (amended): in a scan of nodes with pairwise-distinct ids, every
visited TEXT node with empty or mixed `textStyleId` yields exactly one
TextFinding and zero LayerFindings for its id; ColorFindings for the same id
are not excluded (see the counterexample), because the overlap guard runs
only on the layer paths. -/
theorem C1_text_category_exclusivity (roots : List Node) (ancestors : List Frame)
    (tcat : List TextStyleDescriptor) (ccat : List ColorVariableDescriptor)
    (v : Visit) (hroots : roots ≠ [])
    (hnodup : ((scanVisits roots ancestors).map (fun w => w.data.id)).Nodup)
    (hv : v ∈ scanVisits roots ancestors)
    (htype : v.data.type = NodeType.TEXT)
    (hdet : textStyleDetached v.data = true) :
    ((scanForDetachedElements roots ancestors tcat ccat).detachedTextStyles.countP
        (fun tf => decide (tf.id = v.data.id)) = 1) ∧
    (∀ lf ∈ (scanForDetachedElements roots ancestors tcat ccat).detachedLayers,
      lf.id ≠ v.data.id) := by
  constructor
  · rw [scan_text hroots,
      countP_flatMap_single (fun tf => decide (tf.id = v.data.id))
        (textFindingsOfVisit tcat) (fun w => w.data.id) (scanVisits roots ancestors)
        hnodup v hv ?hzero]
    · simp [textFindingsOfVisit, htype, hdet, mkTextFinding]
    case hzero =>
      intro w hw hne
      rw [List.countP_eq_zero]
      intro tf htf
      have hid := textFindingsOfVisit_id htf
      simp only [decide_eq_true_eq]
      intro heq
      exact hne (scanVisits_id_inj hnodup hw hv (by rw [← hid, heq]))
  · intro lf hlf heq
    rcases scan_layers_mem hroots hlf with ⟨w, hw, hid, hprop⟩
    have hwv : w = v := scanVisits_id_inj hnodup hw hv (by rw [← hid, heq])
    rw [hwv] at hprop
    exact hprop ⟨htype, hdet⟩

/-- Attributes of a TEXT node with no text style and an unbound solid fill. -/
def c1data : NodeData :=
  { id := "t1", name := "label", type := NodeType.TEXT, textStyleId := .empty,
    fills := some [{ type := PaintType.SOLID, color := some { r := 1, g := 0, b := 0 } }] }

/-- The C1 counterexample node. -/
def c1node : Node := .node c1data []

/-- C1 counterexample: a TEXT node with empty `textStyleId` and one unbound
solid fill appears in both `detachedTextStyles` and `detachedVariables`, so a
node id is not confined to a single category list and a detached TEXT node
can have a ColorFinding alongside its TextFinding. -/
theorem C1_counterexample :
    ((scanForDetachedElements [c1node] [] [] []).detachedTextStyles.map
        (fun f => f.id) = ["t1"]) ∧
    ((scanForDetachedElements [c1node] [] [] []).detachedVariables.map
        (fun f => f.id) = ["t1"]) := by
  constructor
  · rw [scan_text (by simp)]
    simp [scanVisits, visits, visitsList, c1node, c1data, textFindingsOfVisit,
      textStyleDetached, mkTextFinding]
  · rw [scan_vars (by simp)]
    simp [scanVisits, visits, visitsList, c1node, c1data, colorFindingsOfVisit,
      paintCapable, fillFindings, strokeFindings, effectFindings, slotLoop,
      fillQual, boundFillAt, mkFillFinding]

/-- The single visit performed when scanning the C1 node. -/
def c1visit : Visit :=
  { data := c1data, children := [], ancestors := [], depth := 0 }

/-- C1 witness: the single-node scan of a detached TEXT node instantiates
the amended exclusivity statement. -/
theorem C1_witness :
    (([c1node] : List Node) ≠ [] ∧
      ((scanVisits [c1node] []).map (fun w => w.data.id)).Nodup ∧
      c1visit ∈ scanVisits [c1node] [] ∧
      c1visit.data.type = NodeType.TEXT ∧ textStyleDetached c1visit.data = true) ∧
    ((scanForDetachedElements [c1node] [] [] []).detachedTextStyles.countP
        (fun tf => decide (tf.id = c1visit.data.id)) = 1 ∧
      ∀ lf ∈ (scanForDetachedElements [c1node] [] [] []).detachedLayers,
        lf.id ≠ c1visit.data.id) := by
  have h1 : ([c1node] : List Node) ≠ [] := by simp
  have h2 : ((scanVisits [c1node] []).map (fun w => w.data.id)).Nodup := by
    simp [scanVisits, visits, visitsList, c1node, c1data]
  have h3 : c1visit ∈ scanVisits [c1node] [] := by
    simp [scanVisits, visits, visitsList, c1node, c1visit, c1data]
  exact ⟨⟨h1, h2, h3, rfl, rfl⟩,
    C1_text_category_exclusivity [c1node] [] [] [] c1visit h1 h2 h3 rfl rfl⟩

/-- Per-visit fill-slot count: one finding per detached fill slot. -/
theorem colorFindingsOfVisit_countP_fills (ccat : List ColorVariableDescriptor)
    (v : Visit) (i : Nat) (hp : paintCapable v.data.type = true) :
    (colorFindingsOfVisit ccat v).countP
        (fun f => decide (f.property = SlotRef.fills i)) =
      if fillSlotDetached v.data i then 1 else 0 := by
  unfold colorFindingsOfVisit
  rw [if_pos hp, List.countP_append, List.countP_append, fillFindings_countP,
    strokeFindings_countP_fills, effectFindings_countP_fills]
  omega

/-- Per-visit stroke-slot count: one finding per detached stroke slot. -/
theorem colorFindingsOfVisit_countP_strokes (ccat : List ColorVariableDescriptor)
    (v : Visit) (i : Nat) (hp : paintCapable v.data.type = true) :
    (colorFindingsOfVisit ccat v).countP
        (fun f => decide (f.property = SlotRef.strokes i)) =
      if strokeSlotDetached v.data i then 1 else 0 := by
  unfold colorFindingsOfVisit
  rw [if_pos hp, List.countP_append, List.countP_append, fillFindings_countP_strokes,
    strokeFindings_countP, effectFindings_countP_strokes]
  omega

/-- Per-visit effect-slot count: one finding per detached shadow slot. -/
theorem colorFindingsOfVisit_countP_effect (ccat : List ColorVariableDescriptor)
    (v : Visit) (i : Nat) (hp : paintCapable v.data.type = true) :
    (colorFindingsOfVisit ccat v).countP
        (fun f => decide (f.property = SlotRef.effect i)) =
      if effectSlotDetached v.data i then 1 else 0 := by
  unfold colorFindingsOfVisit
  rw [if_pos hp, List.countP_append, List.countP_append, fillFindings_countP_effect,
    strokeFindings_countP_effect, effectFindings_countP]
  omega

/-- Effect findings carry subtype EFFECT and no candidate matches. -/
theorem colorFindingsOfVisit_effect_shape {ccat : List ColorVariableDescriptor}
    {v : Visit} {f : ColorFinding} (hf : f ∈ colorFindingsOfVisit ccat v)
    {j : Nat} (hj : f.property = SlotRef.effect j) :
    f.type = ColorFindingType.EFFECT ∧ f.matches' = [] := by
  unfold colorFindingsOfVisit at hf
  split at hf
  · rcases List.mem_append.mp hf with hf' | hf'
    · rcases List.mem_append.mp hf' with hf'' | hf''
      · unfold fillFindings at hf''
        rcases hfs : v.data.fills with _ | fills <;> rw [hfs] at hf''
        · exact absurd hf'' (List.not_mem_nil _)
        · rcases slotLoop_mem _ _ _ _ _ hf'' with ⟨x, k, rfl⟩
          exact absurd hj (by simp [mkFillFinding])
      · unfold strokeFindings at hf''
        rcases hfs : v.data.strokes with _ | strokes <;> rw [hfs] at hf''
        · exact absurd hf'' (List.not_mem_nil _)
        · rcases slotLoop_mem _ _ _ _ _ hf'' with ⟨x, k, rfl⟩
          exact absurd hj (by simp [mkStrokeFinding])
    · unfold effectFindings at hf'
      rcases hfs : v.data.effects with _ | effects <;> rw [hfs] at hf'
      · exact absurd hf' (List.not_mem_nil _)
      · rcases slotLoop_mem _ _ _ _ _ hf' with ⟨x, k, rfl⟩
        exact ⟨rfl, rfl⟩
  · exact absurd hf (List.not_mem_nil _)

/-- C3 (amended): for every visited paint-capable node in a scan with
pairwise-distinct ids, each visible solid fill slot and each solid stroke
slot whose index is unmarked in `boundVariables` produces exactly one
ColorFinding carrying `fills[index]` / `strokes[index]`, a marked or hidden
slot produces none, and each unbound DROP_SHADOW / INNER_SHADOW effect slot
produces exactly one ColorFinding of subtype EFFECT with no color matching
(blur effects produce none). -/
theorem C3_slot_findings (roots : List Node) (ancestors : List Frame)
    (tcat : List TextStyleDescriptor) (ccat : List ColorVariableDescriptor)
    (v : Visit) (i : Nat) (hroots : roots ≠ [])
    (hnodup : ((scanVisits roots ancestors).map (fun w => w.data.id)).Nodup)
    (hv : v ∈ scanVisits roots ancestors)
    (hp : paintCapable v.data.type = true) :
    ((scanForDetachedElements roots ancestors tcat ccat).detachedVariables.countP
        (fun f => decide (f.id = v.data.id ∧ f.property = SlotRef.fills i)) =
      if fillSlotDetached v.data i then 1 else 0) ∧
    ((scanForDetachedElements roots ancestors tcat ccat).detachedVariables.countP
        (fun f => decide (f.id = v.data.id ∧ f.property = SlotRef.strokes i)) =
      if strokeSlotDetached v.data i then 1 else 0) ∧
    ((scanForDetachedElements roots ancestors tcat ccat).detachedVariables.countP
        (fun f => decide (f.id = v.data.id ∧ f.property = SlotRef.effect i)) =
      if effectSlotDetached v.data i then 1 else 0) ∧
    (∀ f ∈ (scanForDetachedElements roots ancestors tcat ccat).detachedVariables,
      ∀ j : Nat, f.property = SlotRef.effect j →
        f.type = ColorFindingType.EFFECT ∧ f.matches' = []) := by
  have hcount : ∀ (tag : SlotRef),
      (scanForDetachedElements roots ancestors tcat ccat).detachedVariables.countP
          (fun f => decide (f.id = v.data.id ∧ f.property = tag)) =
        (colorFindingsOfVisit ccat v).countP (fun f => decide (f.property = tag)) := by
    intro tag
    rw [scan_vars hroots,
      countP_flatMap_single (fun f => decide (f.id = v.data.id ∧ f.property = tag))
        (colorFindingsOfVisit ccat) (fun w => w.data.id) (scanVisits roots ancestors)
        hnodup v hv ?hzero]
    · refine List.countP_congr ?_
      intro f hf
      have hid := colorFindingsOfVisit_id hf
      simp [hid]
    case hzero =>
      intro w hw hne
      rw [List.countP_eq_zero]
      intro f hf
      have hid := colorFindingsOfVisit_id hf
      simp only [decide_eq_true_eq]
      rintro ⟨heq, -⟩
      exact hne (scanVisits_id_inj hnodup hw hv (by rw [← hid, heq]))
  refine ⟨?_, ?_, ?_, ?_⟩
  · rw [hcount (SlotRef.fills i)]
    exact colorFindingsOfVisit_countP_fills ccat v i hp
  · rw [hcount (SlotRef.strokes i)]
    exact colorFindingsOfVisit_countP_strokes ccat v i hp
  · rw [hcount (SlotRef.effect i)]
    exact colorFindingsOfVisit_countP_effect ccat v i hp
  · intro f hf j hj
    rw [scan_vars hroots] at hf
    rcases List.mem_flatMap.mp hf with ⟨w, hw, hfw⟩
    exact colorFindingsOfVisit_effect_shape hfw hj

/-- A hidden solid fill slot. -/
def c3hiddenFill : Paint :=
  { type := PaintType.SOLID, color := some { r := 1, g := 0, b := 0 },
    visible := some false }

/-- A blur effect slot. -/
def c3blur : Effect := { type := EffectType.LAYER_BLUR, radius := 4 }

/-- Attributes of a rectangle with a hidden solid fill and a blur effect. -/
def c3data : NodeData :=
  { id := "r0", name := "blurred", type := NodeType.RECTANGLE,
    fills := some [c3hiddenFill], effects := some [c3blur] }

/-- The C3 counterexample node. -/
def c3node : Node := .node c3data []

/-- C3 counterexample: a hidden solid fill slot (`visible = false`) and a
LAYER_BLUR effect slot, both unbound, produce no ColorFinding at all — the
fills loop skips invisible fills (src/code.js:1602) and the effects loop only
matches DROP_SHADOW / INNER_SHADOW (src/code.js:1732), contradicting the
claim that every solid fill slot and every shadow/blur effect slot yields a
finding. -/
theorem C3_counterexample :
    c3hiddenFill.type = PaintType.SOLID ∧ c3hiddenFill.visible = some false ∧
    c3data.fills = some [c3hiddenFill] ∧
    c3blur.type = EffectType.LAYER_BLUR ∧ c3data.effects = some [c3blur] ∧
    c3data.boundVariables = none ∧
    (scanForDetachedElements [c3node] [] [] []).detachedVariables = [] := by
  refine ⟨rfl, rfl, rfl, rfl, rfl, rfl, ?_⟩
  rw [scan_vars (by simp)]
  simp [scanVisits, visits, visitsList, c3node, c3data, colorFindingsOfVisit,
    paintCapable, fillFindings, strokeFindings, effectFindings, slotLoop,
    fillQual, effectQual, boundFillAt, boundEffectAt, c3hiddenFill, c3blur]

/-- Attributes of a rectangle with one unbound and one bound solid fill plus a
drop shadow. -/
def c3wdata : NodeData :=
  { id := "r1", name := "rect", type := NodeType.RECTANGLE,
    fills := some [{ type := PaintType.SOLID, color := some { r := 1, g := 0, b := 0 } },
                   { type := PaintType.SOLID, color := some { r := 0, g := 0, b := 1 } }],
    boundVariables := some { fills := [1] },
    effects := some [{ type := EffectType.DROP_SHADOW, radius := 2 }] }

/-- The C3 witness node. -/
def c3wnode : Node := .node c3wdata []

/-- The single visit performed when scanning the C3 witness node. -/
def c3wvisit : Visit :=
  { data := c3wdata, children := [], ancestors := [], depth := 0 }

/-- C3 witness: a rectangle with an unbound solid fill, a bound solid fill
and a drop shadow instantiates the per-slot counts 1, 0 and 1. -/
theorem C3_witness :
    (([c3wnode] : List Node) ≠ [] ∧
      ((scanVisits [c3wnode] []).map (fun w => w.data.id)).Nodup ∧
      c3wvisit ∈ scanVisits [c3wnode] [] ∧
      paintCapable c3wvisit.data.type = true) ∧
    fillSlotDetached c3wvisit.data 0 = true ∧
    fillSlotDetached c3wvisit.data 1 = false ∧
    effectSlotDetached c3wvisit.data 0 = true ∧
    ((scanForDetachedElements [c3wnode] [] [] []).detachedVariables.countP
        (fun f => decide (f.id = c3wvisit.data.id ∧ f.property = SlotRef.fills 0)) =
      if fillSlotDetached c3wvisit.data 0 then 1 else 0) ∧
    ((scanForDetachedElements [c3wnode] [] [] []).detachedVariables.countP
        (fun f => decide (f.id = c3wvisit.data.id ∧ f.property = SlotRef.fills 1)) =
      if fillSlotDetached c3wvisit.data 1 then 1 else 0) ∧
    ((scanForDetachedElements [c3wnode] [] [] []).detachedVariables.countP
        (fun f => decide (f.id = c3wvisit.data.id ∧ f.property = SlotRef.effect 0)) =
      if effectSlotDetached c3wvisit.data 0 then 1 else 0) := by
  have h1 : ([c3wnode] : List Node) ≠ [] := by simp
  have h2 : ((scanVisits [c3wnode] []).map (fun w => w.data.id)).Nodup := by
    simp [scanVisits, visits, visitsList, c3wnode, c3wdata]
  have h3 : c3wvisit ∈ scanVisits [c3wnode] [] := by
    simp [scanVisits, visits, visitsList, c3wnode, c3wvisit, c3wdata]
  exact ⟨⟨h1, h2, h3, rfl⟩, rfl, rfl, rfl,
    (C3_slot_findings [c3wnode] [] [] [] c3wvisit 0 h1 h2 h3 rfl).1,
    (C3_slot_findings [c3wnode] [] [] [] c3wvisit 1 h1 h2 h3 rfl).1,
    (C3_slot_findings [c3wnode] [] [] [] c3wvisit 0 h1 h2 h3 rfl).2.2.1⟩

/-- C2 counterexample: the claim says a catalog entry is an exact match if and
only if every per-channel absolute difference is below 1/255, but the source
threshold is the literal 0.004 (src/code.js:1246): a red-channel difference of
79/20000 = 0.00395 is at least 1/255 yet is classified exact. -/
theorem C2_counterexample :
    (findMatchingColorVariables { r := 0, g := 0, b := 0 }
        [{ id := "v1", name := "red-ish", remote := false,
           resolvedColor := some { r := 79/20000, g := 0, b := 0 } }]).map
        (fun m => m.matchType) = [ColorTier.exact] ∧
      ¬ ((79 : ℚ) / 20000 < 1 / 255) := by
  have hp : exactColorPred { r := 0, g := 0, b := 0 }
      { id := "v1", name := "red-ish", remote := false,
        resolvedColor := some { r := 79/20000, g := 0, b := 0 } } = true := by
    simp only [exactColorPred]
    norm_num [abs_lt]
  constructor
  · simp [findMatchingColorVariables, List.filter, hp, mkColorMatch]
  · norm_num

/-- A TEXT node with AUTO (value-absent) line height for the C4 counterexample. -/
def c4autoNode : NodeData :=
  { id := "t2", name := "auto-text", type := NodeType.TEXT,
    fontName := some { family := "Inter", style := "Bold" },
    fontSize := some 16, lineHeight := some { value := none } }

/-- A catalog style identical to `c4autoNode` in every compared property,
including the same AUTO (value-absent) line height. -/
def c4autoStyle : TextStyleDescriptor :=
  { id := "sAuto", name := "Body", fontName := some { family := "Inter", style := "Bold" },
    fontSize := some 16, lineHeight := some { value := none }, remote := false }

/-- C4 counterexample: the claim's exact tier requires line height and letter
spacing each 'identical or within 0.1 absolute unit tolerance', but for a
node and a style that agree in family, style, font size and letter spacing
and carry the same AUTO (value-absent) line height, the code's exact test
fails — `styleLineHeight === nodeLineHeight` compares two distinct objects
and `Math.abs(undefined - undefined) < 0.1` is a false NaN comparison
(src/code.js:1159-1161) — so the identical style degrades to the partial
tier instead of being an exact match. -/
theorem C4_counterexample :
    c4autoStyle.fontName = c4autoNode.fontName ∧
    c4autoStyle.fontSize = c4autoNode.fontSize ∧
    c4autoStyle.lineHeight = c4autoNode.lineHeight ∧
    c4autoStyle.letterSpacing = c4autoNode.letterSpacing ∧
    exactTextMatch c4autoNode c4autoStyle = false ∧
    (findMatchingTextStyles c4autoNode [c4autoStyle]).map (fun m => m.matchType) =
      [TextTier.partialTier] := by
  have hex : exactTextMatch c4autoNode c4autoStyle = false := by
    simp [exactTextMatch, unitValueClose, c4autoNode, c4autoStyle]
  have hpar : partialTextMatch c4autoNode c4autoStyle = true := by
    simp [partialTextMatch, c4autoNode, c4autoStyle]
  have hguard : (c4autoNode.fontName.isNone || jsFalsyNum c4autoNode.fontSize) = false := by
    simp [c4autoNode, jsFalsyNum]
  refine ⟨rfl, rfl, rfl, rfl, hex, ?_⟩
  simp [findMatchingTextStyles, hguard, List.filter, hex, hpar, mkTextMatch]
